import Mathlib

/-!
# Password generator micro-service: verification development

A shallow embedding of `main.go` (the password generator and its HTTP
handler) together with theorems about the embedding.

Conventions of the embedding

* Go `int` is modelled by `Int`; sizes of buffers by `Nat`.
* Go strings are byte strings.  All constants of the program are ASCII, so a
  byte position and a character position coincide and `String`/`List Char`
  is used.
* A Go run-time panic is an explicit `Except.error`.
* The pseudo-random source is a stream `draws : Nat → Nat` of raw values: the
  `k`-th call of `rand.Intn n` (counted from zero) returns `draws k % n`.  The
  seed chosen by `rand.Seed(time.Now().UnixNano())` fixes the stream, so the
  stream is a parameter of the generator.
* The bound check of `make` is modelled: a size below zero or above
  `maxAlloc` panics.  Running out of memory on a size within the bound is not
  modelled.
* Query values are `String`s; the handler inspects them only by comparison
  with ASCII constants and by the digit test of `strconv`, for which a
  character outside ASCII behaves as its bytes do.
* A run of the handler is its observable trace: the final state of the
  response writer, the calls of `generatePassword`, and whether the run
  returned or was left by a panic.
-/

namespace PasswordGenerator

/-! ## Data model (main.go, lines 11-24) -/

/-- The configuration of one generation, `PasswordConfig` of main.go. -/
structure PasswordConfig where
  Length : Int
  UseUppercase : Bool
  UseLowercase : Bool
  UseNumbers : Bool
  UseSpecialChar : Bool
  deriving DecidableEq, Repr

def uppercaseChars : String := "ABCDEFGHIJKLMNOPQRSTUVWXYZ"
def lowercaseChars : String := "abcdefghijklmnopqrstuvwxyz"
def numberChars : String := "0123456789"
def specialCharChars : String := "!@#$%^&*()_-+=[]\x7b\x7d|:;<>,.?/~"

deriving instance DecidableEq for Except

/-! ## Run-time panics -/

/-- The run-time panics the program can raise. -/
inductive Panic where
  /-- The panic of `make([]byte, n)` with `n < 0` or `n` above `maxAlloc`. -/
  | makesliceLenOutOfRange
  /-- The panic of `rand.Intn(n)` with `n <= 0`. -/
  | intnInvalidArgument
  /-- An index expression out of the bounds of its string or slice. -/
  | indexOutOfRange
  deriving DecidableEq, Repr

/-! ## Library primitives used by the generator -/

/-- The largest size `makeslice` of the Go run time accepts for a slice of
bytes on 64-bit Linux, `maxAlloc = 1 << 48`. -/
def maxAlloc : Int := 2 ^ 48

/-- The allocation `make([]byte, n)`: a zero-filled buffer of `n` bytes, or the
panic `makeslice: len out of range` when `n` is negative or above `maxAlloc`. -/
def makeBytes (n : Int) : Except Panic (List Char) :=
  if n < 0 ∨ maxAlloc < n then .error Panic.makesliceLenOutOfRange
  else .ok (List.replicate n.toNat (Char.ofNat 0))

/-- The call `rand.Intn(n)` on the raw value `raw` of the source: a panic when
`n <= 0`, otherwise a value of `[0, n)`. -/
def Intn (raw : Nat) (n : Nat) : Except Panic Nat :=
  if n = 0 then .error Panic.intnInvalidArgument
  else .ok (raw % n)

/-- The index expression `s[i]` on a string. -/
def byteAt (s : String) (i : Nat) : Except Panic Char :=
  match s.data[i]? with
  | some c => .ok c
  | none => .error Panic.indexOutOfRange

/-! ## The generator (main.go, lines 26-53) -/

/-- Lines 27-43 of `generatePassword`: the sampling alphabet `charsToUse`. -/
def buildCharsToUse (config : PasswordConfig) : String :=
  let charsToUse := ""
  let charsToUse := if config.UseUppercase then charsToUse ++ uppercaseChars else charsToUse
  let charsToUse := if config.UseLowercase then charsToUse ++ lowercaseChars else charsToUse
  let charsToUse := if config.UseNumbers then charsToUse ++ numberChars else charsToUse
  let charsToUse := if config.UseSpecialChar then charsToUse ++ specialCharChars else charsToUse
  charsToUse

/-- The state of the loop of lines 48-50: the buffer and the number of calls
of `rand.Intn` made so far. -/
structure LoopState where
  password : List Char
  drawn : Nat
  deriving DecidableEq, Repr

/-- The loop `for i := range password` of lines 48-50, with `remaining`
iterations left to run from index `i`. -/
def fillLoop (charsToUse : String) (draws : Nat → Nat) :
    Nat → Nat → LoopState → Except Panic LoopState
  | 0, _, st => .ok st
  | remaining + 1, i, st =>
    match Intn (draws st.drawn) charsToUse.data.length with
    | .error p => .error p
    | .ok j =>
      match byteAt charsToUse j with
      | .error p => .error p
      | .ok c =>
        fillLoop charsToUse draws remaining (i + 1)
          { password := st.password.set i c, drawn := st.drawn + 1 }

/-- The function `generatePassword` of main.go, returning the final loop state. -/
def generatePasswordRun (config : PasswordConfig) (draws : Nat → Nat) :
    Except Panic LoopState :=
  let charsToUse := buildCharsToUse config
  match makeBytes config.Length with
  | .error p => .error p
  | .ok password =>
    fillLoop charsToUse draws password.length 0 { password := password, drawn := 0 }

/-- The function `generatePassword` of main.go: the string it returns, or the
panic it raises. -/
def generatePassword (config : PasswordConfig) (draws : Nat → Nat) :
    Except Panic String :=
  match generatePasswordRun config draws with
  | .error p => .error p
  | .ok st => .ok (String.mk st.password)

/-! ## Library primitives used by the handler

The handler calls `net/url`, `strconv`, `net/http` and `encoding/json` of the
Go standard library.  They are modelled after their documented behaviour, as
far as the handler observes it. -/

/-- An incoming request, as far as the handler reads it: the key/value pairs
of the decoded query string, in their order of appearance in the URL. -/
structure Request where
  query : List (String × String)
  deriving DecidableEq, Repr

/-- The call `r.URL.Query().Get(key)`: the first value associated with `key`,
or the empty string when there is none. -/
def Request.queryGet (r : Request) (key : String) : String :=
  match r.query.find? (fun kv => kv.1 = key) with
  | some kv => kv.2
  | none => ""

/-- The byte test of the digit loop of `strconv`: a decimal digit. -/
def isDecimalDigit (c : Char) : Bool :=
  decide ('0'.toNat ≤ c.toNat) && decide (c.toNat ≤ '9'.toNat)

/-- The value of a string of decimal digits, most significant first. -/
def decimalValue (ds : List Char) : Nat :=
  ds.foldl (fun n c => n * 10 + (c.toNat - '0'.toNat)) 0

/-- The call `strconv.Atoi(s)` for a 64-bit `int`; `none` stands for a
non-nil error.  The accepted strings are an optional sign `+` or `-`
followed by one or more decimal digits whose value fits the type. -/
def Atoi (s : String) : Option Int :=
  let signed : Bool × List Char :=
    match s.data with
    | '-' :: rest => (true, rest)
    | '+' :: rest => (false, rest)
    | cs => (false, cs)
  let neg := signed.1
  let ds := signed.2
  if ds.isEmpty then none
  else if !ds.all isDecimalDigit then none
  else
    let un := decimalValue ds
    if !neg && 2 ^ 63 ≤ un then none
    else if neg && 2 ^ 63 < un then none
    else some (if neg then -(un : Int) else (un : Int))

/-- The call `strconv.ParseBool(str)`; `none` stands for a non-nil error. -/
def ParseBool (str : String) : Option Bool :=
  if str = "1" ∨ str = "t" ∨ str = "T" ∨ str = "true" ∨ str = "TRUE" ∨ str = "True" then
    some true
  else if str = "0" ∨ str = "f" ∨ str = "F" ∨ str = "false" ∨ str = "FALSE" ∨ str = "False" then
    some false
  else none

/-- What a single write puts on the body of a response. -/
inductive Written where
  /-- Plain text, byte for byte. -/
  | text (s : String)
  /-- The JSON encoding of an object with string values, given by its
  key/value pairs. -/
  | jsonObject (fields : List (String × String))
  deriving DecidableEq, Repr

/-- The observable state of an `http.ResponseWriter`: the header map, the
status code once it is sent, and the writes made to the body, in order. -/
structure ResponseWriter where
  header : List (String × String)
  status : Option Nat
  body : List Written
  deriving DecidableEq, Repr

/-- A response writer on which nothing has been done yet. -/
def ResponseWriter.fresh : ResponseWriter :=
  { header := [], status := none, body := [] }

/-- The call `w.Header().Set(key, value)`. -/
def ResponseWriter.headerSet (w : ResponseWriter) (key value : String) : ResponseWriter :=
  { w with header := w.header.filter (fun kv => kv.1 ≠ key) ++ [(key, value)] }

/-- The call `w.Header().Get(key)`. -/
def ResponseWriter.headerGet (w : ResponseWriter) (key : String) : String :=
  match w.header.find? (fun kv => kv.1 = key) with
  | some kv => kv.2
  | none => ""

/-- The call `w.WriteHeader(code)`: the first status code sent stays. -/
def ResponseWriter.WriteHeader (w : ResponseWriter) (code : Nat) : ResponseWriter :=
  match w.status with
  | some _ => w
  | none => { w with status := some code }

/-- The call `w.Write(data)`: sends status 200 when no status was sent before. -/
def ResponseWriter.Write (w : ResponseWriter) (data : Written) : ResponseWriter :=
  let w := w.WriteHeader 200
  { w with body := w.body ++ [data] }

/-- The call `http.Error(w, error, code)`. -/
def httpErrorReply (w : ResponseWriter) (error : String) (code : Nat) : ResponseWriter :=
  let w := w.headerSet "Content-Type" "text/plain; charset=utf-8"
  let w := w.headerSet "X-Content-Type-Options" "nosniff"
  let w := w.WriteHeader code
  w.Write (Written.text (error ++ "\n"))

/-- The call `json.NewEncoder(w).Encode(response)` for a `map[string]string`. -/
def jsonEncode (w : ResponseWriter) (response : List (String × String)) : ResponseWriter :=
  w.Write (Written.jsonObject response)

def StatusBadRequest : Nat := 400

/-! ## The handler (main.go, lines 55-159) -/

/-- The type `httpErrorWrapper` of main.go. -/
structure httpErrorWrapper where
  Message : String
  StatusCode : Nat
  deriving DecidableEq, Repr

/-- The function `httpError` of main.go. -/
def httpError (message : String) (statusCode : Nat) : httpErrorWrapper :=
  { Message := message, StatusCode := statusCode }

/-- The method `Error` of `httpErrorWrapper`. -/
def httpErrorWrapper.Error (e : httpErrorWrapper) : String := e.Message

/-- The function `getQueryParam` of main.go. -/
def getQueryParam (r : Request) (param : String) : Except httpErrorWrapper String :=
  let value := r.queryGet param
  if value = "" then
    .error (httpError ("O parâmetro '" ++ param ++ "' não foi fornecido") StatusBadRequest)
  else .ok value

/-- How a run of the handler ends. -/
inductive Ending where
  /-- The handler returned. -/
  | returned
  /-- The handler was left by a panic. -/
  | panicked (p : Panic)
  deriving DecidableEq, Repr

/-- One run of the handler: the response writer as the run leaves it, the
configurations `generatePassword` was invoked with, and how the run ended. -/
structure HandlerRun where
  w : ResponseWriter
  generatorCalls : List PasswordConfig
  ending : Ending
  deriving DecidableEq, Repr

/-- A run that ends by `http.Error(w, message, http.StatusBadRequest); return`. -/
def replyBadRequest (w : ResponseWriter) (message : String) : HandlerRun :=
  { w := httpErrorReply w message StatusBadRequest, generatorCalls := [], ending := Ending.returned }

/-- The function `generatePasswordHandler` of main.go. -/
def generatePasswordHandler (w : ResponseWriter) (r : Request) (draws : Nat → Nat) : HandlerRun :=
  match getQueryParam r "length" with
  | .error err => replyBadRequest w err.Error
  | .ok lengthParam =>
  match getQueryParam r "useUppercase" with
  | .error err => replyBadRequest w err.Error
  | .ok useUppercaseParam =>
  match getQueryParam r "useLowercase" with
  | .error err => replyBadRequest w err.Error
  | .ok useLowercaseParam =>
  match getQueryParam r "useNumbers" with
  | .error err => replyBadRequest w err.Error
  | .ok useNumbersParam =>
  match getQueryParam r "useSpecialChar" with
  | .error err => replyBadRequest w err.Error
  | .ok useSpecialCharParam =>
  match Atoi lengthParam with
  | none => replyBadRequest w "O parâmetro 'length' deve ser um número inteiro positivo"
  | some length =>
  if length ≤ 0 then
    replyBadRequest w "O parâmetro 'length' deve ser um número inteiro positivo"
  else
  match ParseBool useUppercaseParam with
  | none =>
    replyBadRequest w "O parâmetro 'useUppercase' deve ser um valor booleano ('true' ou 'false')"
  | some useUppercase =>
  match ParseBool useLowercaseParam with
  | none =>
    replyBadRequest w "O parâmetro 'useLowercase' deve ser um valor booleano ('true' ou 'false')"
  | some useLowercase =>
  match ParseBool useNumbersParam with
  | none =>
    replyBadRequest w "O parâmetro 'useNumbers' deve ser um valor booleano ('true' ou 'false')"
  | some useNumbers =>
  match ParseBool useSpecialCharParam with
  | none =>
    replyBadRequest w "O parâmetro 'useSpecialChar' deve ser um valor booleano ('true' ou 'false')"
  | some useSpecialChar =>
  let config : PasswordConfig :=
    { Length := length
      UseUppercase := useUppercase
      UseLowercase := useLowercase
      UseNumbers := useNumbers
      UseSpecialChar := useSpecialChar }
  match generatePassword config draws with
  | .error p => { w := w, generatorCalls := [config], ending := Ending.panicked p }
  | .ok password =>
    let response := [("password", password)]
    let w := w.headerSet "Content-Type" "application/json"
    { w := jsonEncode w response, generatorCalls := [config], ending := Ending.returned }

/-! ## Vocabulary of the properties

The definitions below are not part of the program: they name what the
properties proved further down speak about. -/

/-- The character the `k`-th draw selects from the alphabet. -/
def drawnChar (charsToUse : String) (draws : Nat → Nat) (k : Nat) : Char :=
  charsToUse.data.getD (draws k % charsToUse.data.length) (Char.ofNat 0)

/-- What it means for a character to respect the class flags of a
configuration: it lies in an enabled class and in no disabled class. -/
def respectsFlags (config : PasswordConfig) (c : Char) : Prop :=
  ((config.UseUppercase = true ∧ c ∈ uppercaseChars.data) ∨
    (config.UseLowercase = true ∧ c ∈ lowercaseChars.data) ∨
    (config.UseNumbers = true ∧ c ∈ numberChars.data) ∨
    (config.UseSpecialChar = true ∧ c ∈ specialCharChars.data)) ∧
  (config.UseUppercase = false → c ∉ uppercaseChars.data) ∧
  (config.UseLowercase = false → c ∉ lowercaseChars.data) ∧
  (config.UseNumbers = false → c ∉ numberChars.data) ∧
  (config.UseSpecialChar = false → c ∉ specialCharChars.data)

instance (config : PasswordConfig) (c : Char) : Decidable (respectsFlags config c) := by
  unfold respectsFlags; infer_instance

/-- The five query parameters the handler requires, in the order in which it
reads them. -/
def requiredParams : List String :=
  ["length", "useUppercase", "useLowercase", "useNumbers", "useSpecialChar"]

/-- The four flag parameters, in the order in which the handler parses them. -/
def flagParams : List String :=
  ["useUppercase", "useLowercase", "useNumbers", "useSpecialChar"]

/-- All five parameters are present with a non-empty value. -/
def allProvided (r : Request) : Prop :=
  ∀ p ∈ requiredParams, r.queryGet p ≠ ""

instance (r : Request) : Decidable (allProvided r) := by
  unfold allProvided; infer_instance

/-- The message of a missing parameter. -/
def missingMessage (param : String) : String :=
  "O parâmetro '" ++ param ++ "' não foi fornecido"

/-- The message of an invalid length. -/
def lengthMessage : String :=
  "O parâmetro 'length' deve ser um número inteiro positivo"

/-- The message of a flag that is not a boolean value. -/
def booleanMessage (param : String) : String :=
  "O parâmetro '" ++ param ++ "' deve ser um valor booleano ('true' ou 'false')"

/-- The strings `strconv.ParseBool` accepts. -/
def parseBoolLiterals : List String :=
  ["1", "t", "T", "TRUE", "true", "True", "0", "f", "F", "FALSE", "false", "False"]

/-- A string is the literal `true` or `false` compared case-insensitively. -/
def isBoolLiteralIgnoringCase (v : String) : Bool :=
  decide (v.data.map Char.toLower = "true".data) || decide (v.data.map Char.toLower = "false".data)

/-- A request in which all five parameters are given, by their values. -/
def requestOf (length useUppercase useLowercase useNumbers useSpecialChar : String) : Request :=
  { query := [("length", length), ("useUppercase", useUppercase), ("useLowercase", useLowercase),
      ("useNumbers", useNumbers), ("useSpecialChar", useSpecialChar)] }

/-- A request passes all validations of the handler. -/
def passesValidation (r : Request) : Prop :=
  allProvided r ∧ (∃ n, Atoi (r.queryGet "length") = some n ∧ 1 ≤ n) ∧
    ∀ f ∈ flagParams, ParseBool (r.queryGet f) ≠ none

/-- A character lies in exactly one of the four classes, and the flag of that
class is set in the configuration. -/
def inOneEnabledClass (config : PasswordConfig) (c : Char) : Prop :=
  (config.UseUppercase = true ∧ c ∈ uppercaseChars.data ∧ c ∉ lowercaseChars.data ∧
    c ∉ numberChars.data ∧ c ∉ specialCharChars.data) ∨
  (config.UseLowercase = true ∧ c ∉ uppercaseChars.data ∧ c ∈ lowercaseChars.data ∧
    c ∉ numberChars.data ∧ c ∉ specialCharChars.data) ∨
  (config.UseNumbers = true ∧ c ∉ uppercaseChars.data ∧ c ∉ lowercaseChars.data ∧
    c ∈ numberChars.data ∧ c ∉ specialCharChars.data) ∨
  (config.UseSpecialChar = true ∧ c ∉ uppercaseChars.data ∧ c ∉ lowercaseChars.data ∧
    c ∉ numberChars.data ∧ c ∈ specialCharChars.data)

instance (config : PasswordConfig) (c : Char) : Decidable (inOneEnabledClass config c) := by
  unfold inOneEnabledClass; infer_instance

/-! # Properties -/

/-! ## Lemmas on the generator -/

theorem Intn_pos (raw n : Nat) (hn : 0 < n) : Intn raw n = .ok (raw % n) := by
  simp [Intn, Nat.pos_iff_ne_zero.mp hn]

theorem byteAt_lt (s : String) (j : Nat) (hj : j < s.data.length) :
    byteAt s j = .ok (s.data.getD j (Char.ofNat 0)) := by
  simp [byteAt, List.getD, List.getElem?_eq_getElem hj]

/-- The loop, started on a buffer `pre ++ suf` at index `|pre|` with `|suf|`
iterations left, overwrites `suf` by the drawn characters. -/
theorem fillLoop_append (charsToUse : String) (draws : Nat → Nat)
    (hne : 0 < charsToUse.data.length) :
    ∀ (suf pre : List Char) (d : Nat),
      fillLoop charsToUse draws suf.length pre.length { password := pre ++ suf, drawn := d }
        = .ok { password := pre ++ (List.range suf.length).map
                  (fun k => drawnChar charsToUse draws (d + k)),
                drawn := d + suf.length } := by
  intro suf
  induction suf with
  | nil => intro pre d; simp [fillLoop]
  | cons x suf ih =>
    intro pre d
    have hj : draws d % charsToUse.data.length < charsToUse.data.length := Nat.mod_lt _ hne
    have hset : (pre ++ x :: suf).set pre.length
        (charsToUse.data.getD (draws d % charsToUse.data.length) (Char.ofNat 0))
        = (pre ++ [charsToUse.data.getD (draws d % charsToUse.data.length) (Char.ofNat 0)]) ++ suf := by
      simp [List.set_append]
    have hlen : pre.length + 1 = (pre ++ [charsToUse.data.getD (draws d % charsToUse.data.length) (Char.ofNat 0)]).length := by
      simp
    simp only [List.length_cons, fillLoop, Intn_pos _ _ hne, byteAt_lt _ _ hj, hset]
    rw [hlen, ih]
    simp [List.range_succ_eq_map, drawnChar, Function.comp_def, Nat.add_assoc, Nat.add_comm 1]

/-- Closed form of the generator on a length `make` accepts and a non-empty
alphabet: position `k` holds the character selected by the `k`-th draw. -/
theorem generatePasswordRun_eq (config : PasswordConfig) (draws : Nat → Nat)
    (hlen : 0 ≤ config.Length) (hmax : config.Length ≤ maxAlloc)
    (hne : 0 < (buildCharsToUse config).data.length) :
    generatePasswordRun config draws
      = .ok { password := (List.range config.Length.toNat).map
                (fun k => drawnChar (buildCharsToUse config) draws k),
              drawn := config.Length.toNat } := by
  have h := fillLoop_append (buildCharsToUse config) draws hne
    (List.replicate config.Length.toNat (Char.ofNat 0)) [] 0
  simp only [List.length_replicate, List.nil_append, List.length_nil, Nat.zero_add] at h
  simp [generatePasswordRun, makeBytes, Int.not_lt.mpr hlen, Int.not_lt.mpr hmax, h]

/-- On a length above `maxAlloc` the generator panics in `make`, before any
draw. -/
theorem generatePassword_too_long (config : PasswordConfig) (draws : Nat → Nat)
    (h : maxAlloc < config.Length) :
    generatePassword config draws = .error Panic.makesliceLenOutOfRange := by
  simp [generatePassword, generatePasswordRun, makeBytes, h]

/-- On a negative length the generator panics in `make`. -/
theorem generatePassword_negative (config : PasswordConfig) (draws : Nat → Nat)
    (h : config.Length < 0) :
    generatePassword config draws = .error Panic.makesliceLenOutOfRange := by
  simp [generatePassword, generatePasswordRun, makeBytes, h]

theorem generatePassword_eq (config : PasswordConfig) (draws : Nat → Nat)
    (hlen : 0 ≤ config.Length) (hmax : config.Length ≤ maxAlloc)
    (hne : 0 < (buildCharsToUse config).data.length) :
    generatePassword config draws
      = .ok (String.mk ((List.range config.Length.toNat).map
                (fun k => drawnChar (buildCharsToUse config) draws k))) := by
  simp [generatePassword, generatePasswordRun_eq config draws hlen hmax hne]

/-- The alphabet is non-empty as soon as one class is enabled. -/
theorem buildCharsToUse_pos (config : PasswordConfig)
    (h : config.UseUppercase = true ∨ config.UseLowercase = true ∨
      config.UseNumbers = true ∨ config.UseSpecialChar = true) :
    0 < (buildCharsToUse config).data.length := by
  obtain ⟨n, u, l, d, s⟩ := config
  cases u <;> cases l <;> cases d <;> cases s <;> simp at h <;>
    simp [buildCharsToUse, uppercaseChars, lowercaseChars, numberChars, specialCharChars]

theorem drawnChar_mem (charsToUse : String) (draws : Nat → Nat) (k : Nat)
    (hne : 0 < charsToUse.data.length) :
    drawnChar charsToUse draws k ∈ charsToUse.data := by
  have hj : draws k % charsToUse.data.length < charsToUse.data.length := Nat.mod_lt _ hne
  rw [drawnChar, List.getD_eq_getElem _ _ hj]
  exact List.getElem_mem _

set_option maxRecDepth 100000 in
theorem buildCharsToUse_respectsFlags (config : PasswordConfig) :
    ∀ c ∈ (buildCharsToUse config).data, respectsFlags config c := by
  obtain ⟨n, u, l, d, s⟩ := config
  have key : ∀ u l d s : Bool, ∀ c ∈ (buildCharsToUse ⟨0, u, l, d, s⟩).data,
      respectsFlags ⟨0, u, l, d, s⟩ c := by decide
  exact key u l d s

/-- C1, as stated, fails on the code: with `Length = 2^48 + 1` and the
uppercase flag set, `make([]byte, Length)` panics with `makeslice: len out of
range`, so no string of `Length` characters is returned. -/
theorem generatePassword_length_exact_counterexample :
    (1 : Int) ≤ 2 ^ 48 + 1 ∧
    generatePassword ⟨2 ^ 48 + 1, true, false, false, false⟩ (fun k => k) =
      .error Panic.makesliceLenOutOfRange ∧
    ¬ ∃ s : String,
      generatePassword ⟨2 ^ 48 + 1, true, false, false, false⟩ (fun k => k) = .ok s ∧
        (s.length : Int) = 2 ^ 48 + 1 := by
  have hfail := generatePassword_too_long ⟨2 ^ 48 + 1, true, false, false, false⟩
    (fun k => k) (by norm_num [maxAlloc])
  refine ⟨by norm_num, hfail, ?_⟩
  rintro ⟨s, hs, _⟩
  rw [hfail] at hs
  cases hs

/-- C1, amended: for every configuration with `1 <= Length <= maxAlloc` (the
sizes `make` accepts) and at least one class flag true, and for every sequence
of random draws, `generatePassword` returns a string, and that string has
exactly `Length` characters. -/
theorem generatePassword_length_exact (config : PasswordConfig) (draws : Nat → Nat)
    (hlen : 1 ≤ config.Length) (hmax : config.Length ≤ maxAlloc)
    (hflag : config.UseUppercase = true ∨ config.UseLowercase = true ∨
      config.UseNumbers = true ∨ config.UseSpecialChar = true) :
    ∃ s : String, generatePassword config draws = .ok s ∧ (s.length : Int) = config.Length := by
  have h0 : 0 ≤ config.Length := by omega
  refine ⟨_, generatePassword_eq config draws h0 hmax (buildCharsToUse_pos config hflag), ?_⟩
  simp [String.length, Int.toNat_of_nonneg h0]

theorem generatePassword_length_exact_witness :
    ∃ s : String, generatePassword ⟨4, false, true, true, false⟩ (fun k => 7 * k + 3) = .ok s ∧
      (s.length : Int) = 4 :=
  generatePassword_length_exact ⟨4, false, true, true, false⟩ (fun k => 7 * k + 3)
    (by decide) (by decide) (by decide)

/-- C2, as stated, fails on the code: with `Length = 2^63 - 1` and the
lowercase flag set, `make([]byte, Length)` panics with `makeslice: len out of
range`; no string is returned, so there is no string whose characters lie in
the enabled classes. -/
theorem generatePassword_chars_enabled_counterexample :
    (1 : Int) ≤ 2 ^ 63 - 1 ∧
    generatePassword ⟨2 ^ 63 - 1, false, true, false, false⟩ (fun k => 3 * k) =
      .error Panic.makesliceLenOutOfRange ∧
    ¬ ∃ s : String,
      generatePassword ⟨2 ^ 63 - 1, false, true, false, false⟩ (fun k => 3 * k) = .ok s ∧
        ∀ c ∈ s.data, c ∈ lowercaseChars.data := by
  have hfail := generatePassword_too_long ⟨2 ^ 63 - 1, false, true, false, false⟩
    (fun k => 3 * k) (by norm_num [maxAlloc])
  refine ⟨by norm_num, hfail, ?_⟩
  rintro ⟨s, hs, _⟩
  rw [hfail] at hs
  cases hs

/-- C2, amended: for every configuration with `1 <= Length <= maxAlloc` (the
sizes `make` accepts) and at least one class flag true, and for every sequence
of random draws, `generatePassword` returns a string each of whose characters
is a member of an enabled character class and a member of no disabled class. -/
theorem generatePassword_chars_enabled (config : PasswordConfig) (draws : Nat → Nat)
    (hlen : 1 ≤ config.Length) (hmax : config.Length ≤ maxAlloc)
    (hflag : config.UseUppercase = true ∨ config.UseLowercase = true ∨
      config.UseNumbers = true ∨ config.UseSpecialChar = true) :
    ∃ s : String, generatePassword config draws = .ok s ∧
      ∀ c ∈ s.data,
        ((config.UseUppercase = true ∧ c ∈ uppercaseChars.data) ∨
          (config.UseLowercase = true ∧ c ∈ lowercaseChars.data) ∨
          (config.UseNumbers = true ∧ c ∈ numberChars.data) ∨
          (config.UseSpecialChar = true ∧ c ∈ specialCharChars.data)) ∧
        (config.UseUppercase = false → c ∉ uppercaseChars.data) ∧
        (config.UseLowercase = false → c ∉ lowercaseChars.data) ∧
        (config.UseNumbers = false → c ∉ numberChars.data) ∧
        (config.UseSpecialChar = false → c ∉ specialCharChars.data) := by
  have h0 : 0 ≤ config.Length := by omega
  have hne := buildCharsToUse_pos config hflag
  refine ⟨_, generatePassword_eq config draws h0 hmax hne, ?_⟩
  intro c hc
  simp only [List.mem_map] at hc
  obtain ⟨k, _, rfl⟩ := hc
  exact buildCharsToUse_respectsFlags config _ (drawnChar_mem _ draws k hne)

theorem generatePassword_chars_enabled_witness :
    ∃ s : String, generatePassword ⟨4, false, true, true, false⟩ (fun k => 7 * k + 3) = .ok s ∧
      ∀ c ∈ s.data,
        (((false : Bool) = true ∧ c ∈ uppercaseChars.data) ∨
          ((true : Bool) = true ∧ c ∈ lowercaseChars.data) ∨
          ((true : Bool) = true ∧ c ∈ numberChars.data) ∨
          ((false : Bool) = true ∧ c ∈ specialCharChars.data)) ∧
        ((false : Bool) = false → c ∉ uppercaseChars.data) ∧
        ((true : Bool) = false → c ∉ lowercaseChars.data) ∧
        ((true : Bool) = false → c ∉ numberChars.data) ∧
        ((false : Bool) = false → c ∉ specialCharChars.data) :=
  generatePassword_chars_enabled ⟨4, false, true, true, false⟩ (fun k => 7 * k + 3)
    (by decide) (by decide) (by decide)

/-! ## Lemmas on the handler -/

theorem getQueryParam_missing (r : Request) (p : String) (h : r.queryGet p = "") :
    getQueryParam r p = .error (httpError (missingMessage p) StatusBadRequest) := by
  simp [getQueryParam, h, missingMessage]

theorem getQueryParam_provided (r : Request) (p : String) (h : r.queryGet p ≠ "") :
    getQueryParam r p = .ok (r.queryGet p) := by
  simp [getQueryParam, h]

/-- A split of a five-element list at one of its elements. -/
theorem split_five {α : Type} (a b c d e x : α) (pre post : List α)
    (h : [a, b, c, d, e] = pre ++ x :: post) :
    (pre = [] ∧ x = a) ∨ (pre = [a] ∧ x = b) ∨ (pre = [a, b] ∧ x = c) ∨
      (pre = [a, b, c] ∧ x = d) ∨ (pre = [a, b, c, d] ∧ x = e) := by
  rcases pre with _ | ⟨a1, _ | ⟨b1, _ | ⟨c1, _ | ⟨d1, _ | ⟨e1, pre⟩⟩⟩⟩⟩ <;>
    simp at h <;> simp [h]

/-- A split of a four-element list at one of its elements. -/
theorem split_four {α : Type} (a b c d x : α) (pre post : List α)
    (h : [a, b, c, d] = pre ++ x :: post) :
    (pre = [] ∧ x = a) ∨ (pre = [a] ∧ x = b) ∨ (pre = [a, b] ∧ x = c) ∨
      (pre = [a, b, c] ∧ x = d) := by
  rcases pre with _ | ⟨a1, _ | ⟨b1, _ | ⟨c1, _ | ⟨d1, pre⟩⟩⟩⟩ <;>
    simp at h <;> simp [h]

/-- Stage 1: the handler answers for the first parameter that is missing. -/
theorem handler_first_missing (w : ResponseWriter) (r : Request) (draws : Nat → Nat)
    (pre post : List String) (p : String)
    (hsplit : requiredParams = pre ++ p :: post)
    (hpre : ∀ q ∈ pre, r.queryGet q ≠ "") (hp : r.queryGet p = "") :
    generatePasswordHandler w r draws = replyBadRequest w (missingMessage p) := by
  rcases split_five _ _ _ _ _ _ _ _ hsplit with h | h | h | h | h <;>
    obtain ⟨rfl, rfl⟩ := h <;>
    simp only [List.mem_cons, List.mem_singleton, forall_eq_or_imp, forall_eq,
      List.not_mem_nil, false_implies, implies_true, and_true] at hpre <;>
    simp [generatePasswordHandler, getQueryParam_missing _ _ hp, getQueryParam_provided, hpre,
      httpErrorWrapper.Error, httpError]

theorem allProvided_iff (r : Request) :
    allProvided r ↔ r.queryGet "length" ≠ "" ∧ r.queryGet "useUppercase" ≠ "" ∧
      r.queryGet "useLowercase" ≠ "" ∧ r.queryGet "useNumbers" ≠ "" ∧
      r.queryGet "useSpecialChar" ≠ "" := by
  simp [allProvided, requiredParams]

/-- Stage 2: with all parameters present, a length that does not parse or is
not positive is answered by the length message. -/
theorem handler_bad_length (w : ResponseWriter) (r : Request) (draws : Nat → Nat)
    (hall : allProvided r)
    (hlen : Atoi (r.queryGet "length") = none ∨
      ∃ n, Atoi (r.queryGet "length") = some n ∧ n ≤ 0) :
    generatePasswordHandler w r draws = replyBadRequest w lengthMessage := by
  obtain ⟨h1, h2, h3, h4, h5⟩ := (allProvided_iff r).mp hall
  rcases hlen with h | ⟨n, h, hn⟩
  · simp [generatePasswordHandler, getQueryParam_provided, h1, h2, h3, h4, h5, h, lengthMessage]
  · simp [generatePasswordHandler, getQueryParam_provided, h1, h2, h3, h4, h5, h, hn,
      lengthMessage]

/-- Stage 3: with all parameters present and a positive length, the handler
answers for the first flag that does not parse. -/
theorem handler_first_bad_flag (w : ResponseWriter) (r : Request) (draws : Nat → Nat)
    (n : Int) (hall : allProvided r) (hA : Atoi (r.queryGet "length") = some n) (hn : 1 ≤ n)
    (pre post : List String) (f : String)
    (hsplit : flagParams = pre ++ f :: post)
    (hpre : ∀ g ∈ pre, ParseBool (r.queryGet g) ≠ none)
    (hf : ParseBool (r.queryGet f) = none) :
    generatePasswordHandler w r draws = replyBadRequest w (booleanMessage f) := by
  obtain ⟨h1, h2, h3, h4, h5⟩ := (allProvided_iff r).mp hall
  have hn0 : ¬ n ≤ 0 := by omega
  rcases split_four _ _ _ _ _ _ _ hsplit with h | h | h | h <;>
    obtain ⟨rfl, rfl⟩ := h <;>
    simp only [List.mem_cons, List.mem_singleton, forall_eq_or_imp, forall_eq,
      List.not_mem_nil, false_implies, implies_true, and_true, ne_eq,
      Option.ne_none_iff_exists] at hpre
  · simp [generatePasswordHandler, getQueryParam_provided, h1, h2, h3, h4, h5, hA, hn0, hf,
      booleanMessage]
  · obtain ⟨bU, hU⟩ := hpre
    simp [generatePasswordHandler, getQueryParam_provided, h1, h2, h3, h4, h5, hA, hn0, hf,
      ← hU, booleanMessage]
  · obtain ⟨⟨bU, hU⟩, bL, hL⟩ := hpre
    simp [generatePasswordHandler, getQueryParam_provided, h1, h2, h3, h4, h5, hA, hn0, hf,
      ← hU, ← hL, booleanMessage]
  · obtain ⟨⟨bU, hU⟩, ⟨bL, hL⟩, bN, hN⟩ := hpre
    simp [generatePasswordHandler, getQueryParam_provided, h1, h2, h3, h4, h5, hA, hn0, hf,
      ← hU, ← hL, ← hN, booleanMessage]

/-- After the three stages: the handler builds the configuration from the
parsed values and invokes the generator on it. -/
theorem handler_validated (w : ResponseWriter) (r : Request) (draws : Nat → Nat)
    (n : Int) (bU bL bN bS : Bool)
    (hall : allProvided r) (hA : Atoi (r.queryGet "length") = some n) (hn : 1 ≤ n)
    (hU : ParseBool (r.queryGet "useUppercase") = some bU)
    (hL : ParseBool (r.queryGet "useLowercase") = some bL)
    (hN : ParseBool (r.queryGet "useNumbers") = some bN)
    (hS : ParseBool (r.queryGet "useSpecialChar") = some bS) :
    generatePasswordHandler w r draws =
      match generatePassword ⟨n, bU, bL, bN, bS⟩ draws with
      | .error p =>
        { w := w, generatorCalls := [⟨n, bU, bL, bN, bS⟩], ending := Ending.panicked p }
      | .ok password =>
        { w := jsonEncode (w.headerSet "Content-Type" "application/json")
            [("password", password)],
          generatorCalls := [⟨n, bU, bL, bN, bS⟩], ending := Ending.returned } := by
  obtain ⟨h1, h2, h3, h4, h5⟩ := (allProvided_iff r).mp hall
  have hn0 : ¬ n ≤ 0 := by omega
  simp [generatePasswordHandler, getQueryParam_provided, h1, h2, h3, h4, h5, hA, hn0, hU, hL,
    hN, hS]

/-- Any list with an element satisfying `P` splits at the first such element. -/
theorem exists_first {α : Type} (P : α → Prop) :
    ∀ l : List α, (∃ x ∈ l, P x) →
      ∃ pre x post, l = pre ++ x :: post ∧ (∀ y ∈ pre, ¬ P y) ∧ P x := by
  intro l
  induction l with
  | nil => rintro ⟨x, hx, _⟩; cases hx
  | cons a l ih =>
    rintro ⟨x, hx, hPx⟩
    by_cases ha : P a
    · exact ⟨[], a, l, rfl, by simp, ha⟩
    · have hx2 : x ∈ l := by
        rcases List.mem_cons.mp hx with h | h
        · subst h; exact absurd hPx ha
        · exact h
      obtain ⟨pre, y, post, hl, hpre, hy⟩ := ih ⟨x, hx2, hPx⟩
      refine ⟨a :: pre, y, post, by simp [hl], ?_, hy⟩
      intro z hz
      rcases List.mem_cons.mp hz with h | h
      · subst h; exact ha
      · exact hpre z h

theorem replyBadRequest_fresh (message : String) :
    replyBadRequest ResponseWriter.fresh message =
      { w := { header := [("Content-Type", "text/plain; charset=utf-8"),
                 ("X-Content-Type-Options", "nosniff")],
               status := some 400,
               body := [Written.text (message ++ "\n")] },
        generatorCalls := [], ending := Ending.returned } := by
  rfl

/-- With all parameters present and a positive length, the handler either
answers for a flag that does not parse or invokes the generator. -/
theorem handler_after_length (w : ResponseWriter) (r : Request) (draws : Nat → Nat)
    (n : Int) (hall : allProvided r) (hA : Atoi (r.queryGet "length") = some n) (hn : 1 ≤ n) :
    (∃ f ∈ flagParams, ParseBool (r.queryGet f) = none ∧
        generatePasswordHandler w r draws = replyBadRequest w (booleanMessage f)) ∨
      (∃ bU bL bN bS,
        ParseBool (r.queryGet "useUppercase") = some bU ∧
        ParseBool (r.queryGet "useLowercase") = some bL ∧
        ParseBool (r.queryGet "useNumbers") = some bN ∧
        ParseBool (r.queryGet "useSpecialChar") = some bS ∧
        (generatePasswordHandler w r draws).generatorCalls = [⟨n, bU, bL, bN, bS⟩] ∧
        ((generatePasswordHandler w r draws).ending = Ending.returned →
          ∃ password, (generatePasswordHandler w r draws).w =
            jsonEncode (w.headerSet "Content-Type" "application/json")
              [("password", password)]) ∧
        (∀ p, (generatePasswordHandler w r draws).ending = Ending.panicked p →
          (generatePasswordHandler w r draws).w = w)) := by
  by_cases hbad : ∃ f ∈ flagParams, ParseBool (r.queryGet f) = none
  · left
    obtain ⟨pre, f, post, hsplit, hpre, hf⟩ := exists_first _ _ hbad
    refine ⟨f, by simp [hsplit], hf, ?_⟩
    exact handler_first_bad_flag w r draws n hall hA hn pre post f hsplit hpre hf
  · right
    simp only [flagParams, List.mem_cons, List.mem_singleton, exists_eq_or_imp, exists_eq_left,
      List.not_mem_nil, false_and, exists_false, or_false, not_or, ← ne_eq,
      Option.ne_none_iff_exists] at hbad
    obtain ⟨⟨bU, hU⟩, ⟨bL, hL⟩, ⟨bN, hN⟩, bS, hS⟩ := hbad
    refine ⟨bU, bL, bN, bS, hU.symm, hL.symm, hN.symm, hS.symm, ?_⟩
    rw [handler_validated w r draws n bU bL bN bS hall hA hn hU.symm hL.symm hN.symm hS.symm]
    cases generatePassword ⟨n, bU, bL, bN, bS⟩ draws with
    | error p => simp
    | ok password => exact ⟨by simp, fun _ => ⟨password, rfl⟩, by simp⟩

/-! ## The handler: properties -/

/-- C3 (the code at the failing input): on the well-formed request
`length=5&useUppercase=false&useLowercase=false&useNumbers=false&useSpecialChar=false`
the handler passes every validation, invokes the generator with an empty
alphabet, and is left by the panic of `rand.Intn(0)`: no status and no body
have been written, so no 400 response is produced. -/
theorem handler_all_flags_false_panics (draws : Nat → Nat) :
    generatePasswordHandler ResponseWriter.fresh
        (requestOf "5" "false" "false" "false" "false") draws =
      { w := ResponseWriter.fresh,
        generatorCalls := [⟨5, false, false, false, false⟩],
        ending := Ending.panicked Panic.intnInvalidArgument } := by
  rw [handler_validated ResponseWriter.fresh _ draws 5 false false false false
    (by decide) (by decide) (by decide) (by decide) (by decide) (by decide) (by decide)]
  rfl

/-- C4: for every request in which at least one of the five parameters is
absent or empty, the handler answers with status 400 and a body that is the
missing-parameter message of the first missing parameter in the order length,
useUppercase, useLowercase, useNumbers, useSpecialChar, and so contains its
name; the values of the other parameters do not matter. -/
theorem handler_missing_parameter (r : Request) (draws : Nat → Nat)
    (hmiss : ∃ p ∈ requiredParams, r.queryGet p = "") :
    ∃ pre p post, requiredParams = pre ++ p :: post ∧
      (∀ q ∈ pre, r.queryGet q ≠ "") ∧ r.queryGet p = "" ∧
      (generatePasswordHandler ResponseWriter.fresh r draws).w.status = some 400 ∧
      (generatePasswordHandler ResponseWriter.fresh r draws).w.body =
        [Written.text ("O parâmetro '" ++ p ++ "' não foi fornecido" ++ "\n")] ∧
      List.IsInfix p.data ("O parâmetro '" ++ p ++ "' não foi fornecido" ++ "\n").data := by
  obtain ⟨pre, p, post, hsplit, hpre, hp⟩ :=
    exists_first (fun p => r.queryGet p = "") requiredParams hmiss
  refine ⟨pre, p, post, hsplit, hpre, hp, ?_, ?_, ?_⟩
  · rw [handler_first_missing _ r draws pre post p hsplit hpre hp, replyBadRequest_fresh]
  · rw [handler_first_missing _ r draws pre post p hsplit hpre hp, replyBadRequest_fresh]
    rfl
  · exact ⟨"O parâmetro '".data, "' não foi fornecido\n".data, by simp [String.data_append]⟩

theorem handler_missing_parameter_witness :
    ∃ pre p post, requiredParams = pre ++ p :: post ∧
      (∀ q ∈ pre, Request.queryGet ⟨[("length", "10"), ("useUppercase", "true"),
          ("useLowercase", "abc"), ("useSpecialChar", "")]⟩ q ≠ "") ∧
      Request.queryGet ⟨[("length", "10"), ("useUppercase", "true"),
          ("useLowercase", "abc"), ("useSpecialChar", "")]⟩ p = "" ∧
      (generatePasswordHandler ResponseWriter.fresh ⟨[("length", "10"), ("useUppercase", "true"),
          ("useLowercase", "abc"), ("useSpecialChar", "")]⟩ (fun k => k)).w.status = some 400 ∧
      (generatePasswordHandler ResponseWriter.fresh ⟨[("length", "10"), ("useUppercase", "true"),
          ("useLowercase", "abc"), ("useSpecialChar", "")]⟩ (fun k => k)).w.body =
        [Written.text ("O parâmetro '" ++ p ++ "' não foi fornecido" ++ "\n")] ∧
      List.IsInfix p.data ("O parâmetro '" ++ p ++ "' não foi fornecido" ++ "\n").data :=
  handler_missing_parameter ⟨[("length", "10"), ("useUppercase", "true"),
      ("useLowercase", "abc"), ("useSpecialChar", "")]⟩ (fun k => k)
    ⟨"useNumbers", by decide, by decide⟩

theorem booleanMessage_ne_lengthMessage :
    ∀ f ∈ flagParams, booleanMessage f ++ "\n" ≠ lengthMessage ++ "\n" := by
  decide

/-- C5: for every request in which all five parameters are present and
non-empty, a length that does not parse as a base-10 integer or parses to an
integer `<= 0` is answered with status 400 and the message that names
`length`, whatever the four flag values are; a length that parses to an
integer `>= 1` is not answered with that message.  The values `0`, `-5` and
`abc` are of the rejected kind. -/
theorem handler_length_check (r : Request) (draws : Nat → Nat) (hall : allProvided r) :
    ((Atoi (r.queryGet "length") = none ∨
        ∃ n, Atoi (r.queryGet "length") = some n ∧ n ≤ 0) →
      (generatePasswordHandler ResponseWriter.fresh r draws).w.status = some 400 ∧
      (generatePasswordHandler ResponseWriter.fresh r draws).w.body =
        [Written.text ("O parâmetro 'length' deve ser um número inteiro positivo" ++ "\n")] ∧
      List.IsInfix "length".data
        ("O parâmetro 'length' deve ser um número inteiro positivo" ++ "\n").data) ∧
    (∀ n, Atoi (r.queryGet "length") = some n → 1 ≤ n →
      (generatePasswordHandler ResponseWriter.fresh r draws).w.body ≠
        [Written.text ("O parâmetro 'length' deve ser um número inteiro positivo" ++ "\n")]) ∧
    (Atoi "0" = some 0 ∧ Atoi "-5" = some (-5) ∧ Atoi "abc" = none) := by
  refine ⟨?_, ?_, by decide⟩
  · intro hlen
    rw [handler_bad_length _ r draws hall hlen, replyBadRequest_fresh]
    exact ⟨rfl, rfl, "O parâmetro '".data, "' deve ser um número inteiro positivo\n".data, by decide⟩
  · intro n hA hn
    rcases handler_after_length ResponseWriter.fresh r draws n hall hA hn with
      ⟨f, hf, _, hrun⟩ | ⟨bU, bL, bN, bS, _, _, _, _, _, hret, hpan⟩
    · rw [hrun, replyBadRequest_fresh]
      intro h
      simp only [List.cons.injEq, Written.text.injEq, and_true] at h
      exact booleanMessage_ne_lengthMessage f hf h
    · cases hend : (generatePasswordHandler ResponseWriter.fresh r draws).ending with
      | returned =>
        obtain ⟨password, hw⟩ := hret hend
        rw [hw]
        simp [jsonEncode, ResponseWriter.Write, ResponseWriter.WriteHeader,
          ResponseWriter.headerSet, ResponseWriter.fresh]
      | panicked p =>
        rw [hpan p hend]
        simp [ResponseWriter.fresh]

theorem handler_length_check_witness :
    allProvided (requestOf "-5" "x" "true" "0" "F") ∧
    (generatePasswordHandler ResponseWriter.fresh (requestOf "-5" "x" "true" "0" "F")
        (fun k => k)).w.status = some 400 :=
  ⟨by decide,
    ((handler_length_check (requestOf "-5" "x" "true" "0" "F") (fun k => k) (by decide)).1
      (Or.inr ⟨-5, by decide, by decide⟩)).1⟩

theorem ParseBool_ne_none_iff (v : String) : ParseBool v ≠ none ↔ v ∈ parseBoolLiterals := by
  unfold ParseBool parseBoolLiterals
  split_ifs with h1 h2
  · simp only [ne_eq, reduceCtorEq, not_false_eq_true, true_iff]
    simp only [List.mem_cons, List.mem_singleton, List.not_mem_nil, or_false]
    tauto
  · simp only [ne_eq, reduceCtorEq, not_false_eq_true, true_iff]
    simp only [List.mem_cons, List.mem_singleton, List.not_mem_nil, or_false]
    tauto
  · simp only [ne_eq, not_true_eq_false, false_iff]
    simp only [List.mem_cons, List.mem_singleton, List.not_mem_nil, or_false]
    tauto

/-- C6, as stated, fails on the code in both directions: the value `1` is not
the literal `true` or `false` under any letter case, yet a request carrying it
is accepted (status 200); the value `tRUE` is the literal `true` up to letter
case, yet a request carrying it is rejected with status 400 and the boolean
message of its flag. -/
theorem flag_ignoring_case_counterexample :
    (isBoolLiteralIgnoringCase "1" = false ∧
      (generatePasswordHandler ResponseWriter.fresh
        (requestOf "5" "1" "true" "true" "true") (fun k => k)).w.status = some 200) ∧
    (isBoolLiteralIgnoringCase "tRUE" = true ∧
      (generatePasswordHandler ResponseWriter.fresh
        (requestOf "5" "tRUE" "true" "true" "true") (fun k => k)).w.status = some 400 ∧
      (generatePasswordHandler ResponseWriter.fresh
        (requestOf "5" "tRUE" "true" "true" "true") (fun k => k)).w.body =
        [Written.text
          ("O parâmetro 'useUppercase' deve ser um valor booleano ('true' ou 'false')" ++ "\n")]) := by
  decide

/-- C6, amended: a flag value is accepted exactly when it is one of the twelve
strings `1 t T TRUE true True 0 f F FALSE false False`.  For every request
with all five parameters present and a valid length: if all four flag values
are among them the handler does not answer 400 and invokes the generator; and
the first flag whose value is not among them is answered with status 400 and
the boolean-value message naming that flag. -/
theorem handler_flag_literals (r : Request) (draws : Nat → Nat) (n : Int)
    (hall : allProvided r) (hA : Atoi (r.queryGet "length") = some n) (hn : 1 ≤ n) :
    (∀ v : String, ParseBool v ≠ none ↔
      v ∈ ["1", "t", "T", "TRUE", "true", "True", "0", "f", "F", "FALSE", "false", "False"]) ∧
    ((∀ f ∈ flagParams, r.queryGet f ∈ parseBoolLiterals) →
      (generatePasswordHandler ResponseWriter.fresh r draws).w.status ≠ some 400 ∧
      ∃ config, (generatePasswordHandler ResponseWriter.fresh r draws).generatorCalls = [config]) ∧
    (∀ pre f post, flagParams = pre ++ f :: post →
      (∀ g ∈ pre, r.queryGet g ∈ parseBoolLiterals) → r.queryGet f ∉ parseBoolLiterals →
      (generatePasswordHandler ResponseWriter.fresh r draws).w.status = some 400 ∧
      (generatePasswordHandler ResponseWriter.fresh r draws).w.body =
        [Written.text
          ("O parâmetro '" ++ f ++ "' deve ser um valor booleano ('true' ou 'false')" ++ "\n")] ∧
      (generatePasswordHandler ResponseWriter.fresh r draws).generatorCalls = []) := by
  refine ⟨ParseBool_ne_none_iff, ?_, ?_⟩
  · intro hlit
    rcases handler_after_length ResponseWriter.fresh r draws n hall hA hn with
      ⟨f, hf, hnone, _⟩ | ⟨bU, bL, bN, bS, _, _, _, _, hcalls, hret, hpan⟩
    · exact absurd hnone ((ParseBool_ne_none_iff _).mpr (hlit f hf))
    · refine ⟨?_, _, hcalls⟩
      cases hend : (generatePasswordHandler ResponseWriter.fresh r draws).ending with
      | returned =>
        obtain ⟨password, hw⟩ := hret hend
        rw [hw]
        simp [jsonEncode, ResponseWriter.Write, ResponseWriter.WriteHeader,
          ResponseWriter.headerSet, ResponseWriter.fresh]
      | panicked p =>
        rw [hpan p hend]
        simp [ResponseWriter.fresh]
  · intro pre f post hsplit hpre hf
    have hpre2 : ∀ g ∈ pre, ParseBool (r.queryGet g) ≠ none :=
      fun g hg => (ParseBool_ne_none_iff _).mpr (hpre g hg)
    have hf2 : ParseBool (r.queryGet f) = none := by
      by_contra h
      exact hf ((ParseBool_ne_none_iff _).mp h)
    rw [handler_first_bad_flag _ r draws n hall hA hn pre post f hsplit hpre2 hf2,
      replyBadRequest_fresh]
    exact ⟨rfl, rfl, rfl⟩

theorem handler_flag_literals_witness :
    (generatePasswordHandler ResponseWriter.fresh
        (requestOf "8" "T" "yes" "0" "no") (fun k => k)).w.status = some 400 ∧
      (generatePasswordHandler ResponseWriter.fresh
        (requestOf "8" "T" "yes" "0" "no") (fun k => k)).w.body =
        [Written.text
          ("O parâmetro '" ++ "useLowercase" ++
            "' deve ser um valor booleano ('true' ou 'false')" ++ "\n")] ∧
      (generatePasswordHandler ResponseWriter.fresh
        (requestOf "8" "T" "yes" "0" "no") (fun k => k)).generatorCalls = [] :=
  (handler_flag_literals (requestOf "8" "T" "yes" "0" "no") (fun k => k) 8
      (by decide) (by decide) (by decide)).2.2
    ["useUppercase"] "useLowercase" ["useNumbers", "useSpecialChar"]
    (by decide) (by decide) (by decide)

theorem booleanMessage_names (f : String) :
    List.IsInfix f.data
      ("O parâmetro '" ++ f ++ "' deve ser um valor booleano ('true' ou 'false')" ++ "\n").data :=
  ⟨"O parâmetro '".data, "' deve ser um valor booleano ('true' ou 'false')\n".data,
    by simp [String.data_append]⟩

/-- C7: for every request with all five parameters present and non-empty and
a valid positive length, an unparseable value of `useUppercase` (such as
`notabool`) is answered with status 400 and a body that contains
`useUppercase`, whatever the other three flags are; in general the body is the
boolean-value message of the first unparseable flag in the order useUppercase,
useLowercase, useNumbers, useSpecialChar, and contains its name. -/
theorem handler_first_unparseable_flag (r : Request) (draws : Nat → Nat) (n : Int)
    (hall : allProvided r) (hA : Atoi (r.queryGet "length") = some n) (hn : 1 ≤ n) :
    (ParseBool (r.queryGet "useUppercase") = none →
      (generatePasswordHandler ResponseWriter.fresh r draws).w.status = some 400 ∧
      ∃ body, (generatePasswordHandler ResponseWriter.fresh r draws).w.body = [Written.text body] ∧
        List.IsInfix "useUppercase".data body.data) ∧
    (∀ pre f post, flagParams = pre ++ f :: post →
      (∀ g ∈ pre, ParseBool (r.queryGet g) ≠ none) → ParseBool (r.queryGet f) = none →
      (generatePasswordHandler ResponseWriter.fresh r draws).w.status = some 400 ∧
      (generatePasswordHandler ResponseWriter.fresh r draws).w.body =
        [Written.text
          ("O parâmetro '" ++ f ++ "' deve ser um valor booleano ('true' ou 'false')" ++ "\n")] ∧
      List.IsInfix f.data
        ("O parâmetro '" ++ f ++ "' deve ser um valor booleano ('true' ou 'false')" ++ "\n").data) ∧
    ParseBool "notabool" = none := by
  have general : ∀ pre f post, flagParams = pre ++ f :: post →
      (∀ g ∈ pre, ParseBool (r.queryGet g) ≠ none) → ParseBool (r.queryGet f) = none →
      (generatePasswordHandler ResponseWriter.fresh r draws).w.status = some 400 ∧
      (generatePasswordHandler ResponseWriter.fresh r draws).w.body =
        [Written.text
          ("O parâmetro '" ++ f ++ "' deve ser um valor booleano ('true' ou 'false')" ++ "\n")] ∧
      List.IsInfix f.data
        ("O parâmetro '" ++ f ++ "' deve ser um valor booleano ('true' ou 'false')" ++ "\n").data := by
    intro pre f post hsplit hpre hf
    rw [handler_first_bad_flag _ r draws n hall hA hn pre post f hsplit hpre hf,
      replyBadRequest_fresh]
    exact ⟨rfl, rfl, booleanMessage_names f⟩
  refine ⟨?_, general, by decide⟩
  intro hU
  obtain ⟨hst, hbody, hin⟩ := general [] "useUppercase" ["useLowercase", "useNumbers",
    "useSpecialChar"] rfl (by simp) hU
  exact ⟨hst, _, hbody, hin⟩

theorem handler_first_unparseable_flag_witness :
    (generatePasswordHandler ResponseWriter.fresh
        (requestOf "12" "notabool" "maybe" "1" "x") (fun k => 3 * k)).w.status = some 400 ∧
      ∃ body, (generatePasswordHandler ResponseWriter.fresh
          (requestOf "12" "notabool" "maybe" "1" "x") (fun k => 3 * k)).w.body =
            [Written.text body] ∧
        List.IsInfix "useUppercase".data body.data :=
  (handler_first_unparseable_flag (requestOf "12" "notabool" "maybe" "1" "x")
    (fun k => 3 * k) 12 (by decide) (by decide) (by decide)).1 (by decide)

/-- C8: the handler validates in three stages in a fixed order and reports
only the first failure.  Stage 1: the first missing parameter is reported,
whatever the length and the flags are.  Stage 2: with all parameters present,
an invalid length is reported, whatever the flags are.  Stage 3: with all
parameters present and a valid length, the first unparseable flag is reported.
In each case the run is a single `http.Error` reply on the fresh writer:
status 400, one write, holding exactly one message. -/
theorem handler_validation_order (r : Request) (draws : Nat → Nat) :
    (∀ pre p post, requiredParams = pre ++ p :: post →
      (∀ q ∈ pre, r.queryGet q ≠ "") → r.queryGet p = "" →
      generatePasswordHandler ResponseWriter.fresh r draws =
        replyBadRequest ResponseWriter.fresh ("O parâmetro '" ++ p ++ "' não foi fornecido")) ∧
    (allProvided r →
      (Atoi (r.queryGet "length") = none ∨ ∃ n, Atoi (r.queryGet "length") = some n ∧ n ≤ 0) →
      generatePasswordHandler ResponseWriter.fresh r draws =
        replyBadRequest ResponseWriter.fresh
          "O parâmetro 'length' deve ser um número inteiro positivo") ∧
    (allProvided r → ∀ n, Atoi (r.queryGet "length") = some n → 1 ≤ n →
      ∀ pre f post, flagParams = pre ++ f :: post →
      (∀ g ∈ pre, ParseBool (r.queryGet g) ≠ none) → ParseBool (r.queryGet f) = none →
      generatePasswordHandler ResponseWriter.fresh r draws =
        replyBadRequest ResponseWriter.fresh
          ("O parâmetro '" ++ f ++ "' deve ser um valor booleano ('true' ou 'false')")) ∧
    (∀ message, (replyBadRequest ResponseWriter.fresh message).w.status = some 400 ∧
      (replyBadRequest ResponseWriter.fresh message).w.body = [Written.text (message ++ "\n")] ∧
      (replyBadRequest ResponseWriter.fresh message).generatorCalls = []) := by
  refine ⟨?_, ?_, ?_, fun message => ⟨rfl, rfl, rfl⟩⟩
  · intro pre p post hsplit hpre hp
    exact handler_first_missing _ r draws pre post p hsplit hpre hp
  · intro hall hlen
    exact handler_bad_length _ r draws hall hlen
  · intro hall n hA hn pre f post hsplit hpre hf
    exact handler_first_bad_flag _ r draws n hall hA hn pre post f hsplit hpre hf

theorem handler_validation_order_witness :
    generatePasswordHandler ResponseWriter.fresh
        ⟨[("length", "abc"), ("useUppercase", "notabool"), ("useLowercase", "true"),
          ("useSpecialChar", "true")]⟩ (fun k => k) =
      replyBadRequest ResponseWriter.fresh
        ("O parâmetro '" ++ "useNumbers" ++ "' não foi fornecido") ∧
    generatePasswordHandler ResponseWriter.fresh
        (requestOf "abc" "notabool" "true" "true" "true") (fun k => k) =
      replyBadRequest ResponseWriter.fresh
        "O parâmetro 'length' deve ser um número inteiro positivo" :=
  ⟨(handler_validation_order ⟨[("length", "abc"), ("useUppercase", "notabool"),
        ("useLowercase", "true"), ("useSpecialChar", "true")]⟩ (fun k => k)).1
      ["length", "useUppercase", "useLowercase"] "useNumbers" ["useSpecialChar"]
      (by decide) (by decide) (by decide),
    (handler_validation_order (requestOf "abc" "notabool" "true" "true" "true")
      (fun k => k)).2.1 (by decide) (Or.inl (by decide))⟩

theorem uppercaseChars_range :
    ∀ c ∈ uppercaseChars.data, 'A'.toNat ≤ c.toNat ∧ c.toNat ≤ 'Z'.toNat := by
  decide

/-- C9, as stated, fails on the code: the request
`length=9223372036854775807&useUppercase=true&useLowercase=false&useNumbers=false&useSpecialChar=false`
passes all validations and enables a class, yet `make([]byte, Length)` panics
in the generator and the handler is left without a status or a body. -/
theorem handler_success_counterexample :
    allProvided (requestOf "9223372036854775807" "true" "false" "false" "false") ∧
    Atoi ((requestOf "9223372036854775807" "true" "false" "false" "false").queryGet "length") =
      some (2 ^ 63 - 1) ∧
    ParseBool ((requestOf "9223372036854775807" "true" "false" "false" "false").queryGet
      "useUppercase") = some true ∧
    generatePasswordHandler ResponseWriter.fresh
        (requestOf "9223372036854775807" "true" "false" "false" "false") (fun k => k) =
      { w := ResponseWriter.fresh,
        generatorCalls := [⟨2 ^ 63 - 1, true, false, false, false⟩],
        ending := Ending.panicked Panic.makesliceLenOutOfRange } ∧
    (generatePasswordHandler ResponseWriter.fresh
        (requestOf "9223372036854775807" "true" "false" "false" "false")
        (fun k => k)).w.status ≠ some 200 := by
  decide

/-- C9, amended: for every request that passes all validations with a length
of at most `maxAlloc` and enables at least one class, the handler answers with
status 200, `Content-Type` `application/json`, and a single JSON object whose
only key is `password` and whose value is the result of `generatePassword` on
the configuration built from the parsed parameters.  In particular, for
`length=10`, `useUppercase=true` and the other three flags `false`, the
password has 10 characters, each in `A`-`Z`. -/
theorem handler_success (draws : Nat → Nat) :
    (∀ (r : Request) (n : Int) (bU bL bN bS : Bool),
      allProvided r → Atoi (r.queryGet "length") = some n → 1 ≤ n → n ≤ maxAlloc →
      ParseBool (r.queryGet "useUppercase") = some bU →
      ParseBool (r.queryGet "useLowercase") = some bL →
      ParseBool (r.queryGet "useNumbers") = some bN →
      ParseBool (r.queryGet "useSpecialChar") = some bS →
      (bU = true ∨ bL = true ∨ bN = true ∨ bS = true) →
      ∃ password,
        generatePassword
          { Length := n, UseUppercase := bU, UseLowercase := bL, UseNumbers := bN,
            UseSpecialChar := bS } draws = .ok password ∧
        (generatePasswordHandler ResponseWriter.fresh r draws).w.status = some 200 ∧
        (generatePasswordHandler ResponseWriter.fresh r draws).w.headerGet "Content-Type" =
          "application/json" ∧
        (generatePasswordHandler ResponseWriter.fresh r draws).w.body =
          [Written.jsonObject [("password", password)]] ∧
        (generatePasswordHandler ResponseWriter.fresh r draws).ending = Ending.returned) ∧
    (∃ password,
      (generatePasswordHandler ResponseWriter.fresh
        (requestOf "10" "true" "false" "false" "false") draws).w.status = some 200 ∧
      (generatePasswordHandler ResponseWriter.fresh
        (requestOf "10" "true" "false" "false" "false") draws).w.body =
          [Written.jsonObject [("password", password)]] ∧
      password.length = 10 ∧
      ∀ c ∈ password.data, 'A'.toNat ≤ c.toNat ∧ c.toNat ≤ 'Z'.toNat) := by
  have general : ∀ (r : Request) (n : Int) (bU bL bN bS : Bool),
      allProvided r → Atoi (r.queryGet "length") = some n → 1 ≤ n → n ≤ maxAlloc →
      ParseBool (r.queryGet "useUppercase") = some bU →
      ParseBool (r.queryGet "useLowercase") = some bL →
      ParseBool (r.queryGet "useNumbers") = some bN →
      ParseBool (r.queryGet "useSpecialChar") = some bS →
      (bU = true ∨ bL = true ∨ bN = true ∨ bS = true) →
      generatePassword ⟨n, bU, bL, bN, bS⟩ draws =
        .ok (String.mk ((List.range n.toNat).map
          (fun k => drawnChar (buildCharsToUse ⟨n, bU, bL, bN, bS⟩) draws k))) ∧
      generatePasswordHandler ResponseWriter.fresh r draws =
        { w := { header := [("Content-Type", "application/json")], status := some 200,
                 body := [Written.jsonObject [("password",
                   String.mk ((List.range n.toNat).map
                     (fun k => drawnChar (buildCharsToUse ⟨n, bU, bL, bN, bS⟩) draws k)))]] },
          generatorCalls := [⟨n, bU, bL, bN, bS⟩], ending := Ending.returned } := by
    intro r n bU bL bN bS hall hA hn hmax hU hL hN hS hflag
    have hgen := generatePassword_eq ⟨n, bU, bL, bN, bS⟩ draws (by simp; omega) hmax
      (buildCharsToUse_pos _ hflag)
    refine ⟨hgen, ?_⟩
    rw [handler_validated _ r draws n bU bL bN bS hall hA hn hU hL hN hS, hgen]
    rfl
  constructor
  · intro r n bU bL bN bS hall hA hn hmax hU hL hN hS hflag
    obtain ⟨hgen, hrun⟩ := general r n bU bL bN bS hall hA hn hmax hU hL hN hS hflag
    refine ⟨_, hgen, ?_, ?_, ?_, ?_⟩
    all_goals (rw [hrun]; try rfl)
  · obtain ⟨_, hrun⟩ := general (requestOf "10" "true" "false" "false" "false") 10
      true false false false (by decide) (by decide) (by decide) (by decide) (by decide)
      (by decide) (by decide) (by decide) (by decide)
    refine ⟨_, by rw [hrun], by rw [hrun], by simp [String.length], ?_⟩
    intro c hc
    simp only [List.mem_map] at hc
    obtain ⟨k, _, rfl⟩ := hc
    exact uppercaseChars_range _ (drawnChar_mem _ draws k (by decide))

theorem handler_success_witness :
    ∃ password,
      generatePassword
        { Length := 6, UseUppercase := false, UseLowercase := true, UseNumbers := true,
          UseSpecialChar := false } (fun k => 5 * k + 1) = .ok password ∧
      (generatePasswordHandler ResponseWriter.fresh (requestOf "6" "F" "true" "1" "0")
        (fun k => 5 * k + 1)).w.status = some 200 ∧
      (generatePasswordHandler ResponseWriter.fresh (requestOf "6" "F" "true" "1" "0")
        (fun k => 5 * k + 1)).w.headerGet "Content-Type" = "application/json" ∧
      (generatePasswordHandler ResponseWriter.fresh (requestOf "6" "F" "true" "1" "0")
        (fun k => 5 * k + 1)).w.body = [Written.jsonObject [("password", password)]] ∧
      (generatePasswordHandler ResponseWriter.fresh (requestOf "6" "F" "true" "1" "0")
        (fun k => 5 * k + 1)).ending = Ending.returned :=
  (handler_success (fun k => 5 * k + 1)).1 (requestOf "6" "F" "true" "1" "0") 6
    false true true false (by decide) (by decide) (by decide) (by decide) (by decide)
    (by decide) (by decide) (by decide) (by decide)

/-- C10: for every request on which a validation fails, the handler answers
with status 400 and a body made of one write holding only the error message
(one of the ten validation messages, as the line `http.Error` writes), does
not invoke `generatePassword`, and writes no part of a success response: no
JSON object is written and `Content-Type` is not `application/json`. -/
theorem handler_validation_failure (r : Request) (draws : Nat → Nat)
    (hfail : ¬ passesValidation r) :
    ∃ message,
      message ∈ requiredParams.map missingMessage ++ lengthMessage ::
        flagParams.map booleanMessage ∧
      (generatePasswordHandler ResponseWriter.fresh r draws).w.status = some 400 ∧
      (generatePasswordHandler ResponseWriter.fresh r draws).w.body =
        [Written.text (message ++ "\n")] ∧
      (generatePasswordHandler ResponseWriter.fresh r draws).generatorCalls = [] ∧
      (∀ fields, Written.jsonObject fields ∉
        (generatePasswordHandler ResponseWriter.fresh r draws).w.body) ∧
      (generatePasswordHandler ResponseWriter.fresh r draws).w.headerGet "Content-Type" ≠
        "application/json" ∧
      (generatePasswordHandler ResponseWriter.fresh r draws).ending = Ending.returned := by
  have reply : ∀ message,
      message ∈ requiredParams.map missingMessage ++ lengthMessage ::
        flagParams.map booleanMessage →
      generatePasswordHandler ResponseWriter.fresh r draws =
        replyBadRequest ResponseWriter.fresh message →
      ∃ message,
        message ∈ requiredParams.map missingMessage ++ lengthMessage ::
          flagParams.map booleanMessage ∧
        (generatePasswordHandler ResponseWriter.fresh r draws).w.status = some 400 ∧
        (generatePasswordHandler ResponseWriter.fresh r draws).w.body =
          [Written.text (message ++ "\n")] ∧
        (generatePasswordHandler ResponseWriter.fresh r draws).generatorCalls = [] ∧
        (∀ fields, Written.jsonObject fields ∉
          (generatePasswordHandler ResponseWriter.fresh r draws).w.body) ∧
        (generatePasswordHandler ResponseWriter.fresh r draws).w.headerGet "Content-Type" ≠
          "application/json" ∧
        (generatePasswordHandler ResponseWriter.fresh r draws).ending = Ending.returned := by
    intro message hmem hrun
    refine ⟨message, hmem, ?_⟩
    rw [hrun, replyBadRequest_fresh]
    refine ⟨rfl, rfl, rfl, ?_, by simp [ResponseWriter.headerGet, List.find?], rfl⟩
    intro fields hin
    simp at hin
  by_cases hall : allProvided r
  · cases hA : Atoi (r.queryGet "length") with
    | none =>
      exact reply lengthMessage (by simp)
        (handler_bad_length _ r draws hall (Or.inl hA))
    | some n =>
      by_cases hn : n ≤ 0
      · exact reply lengthMessage (by simp)
          (handler_bad_length _ r draws hall (Or.inr ⟨n, hA, hn⟩))
      · have hn1 : 1 ≤ n := by omega
        rcases handler_after_length ResponseWriter.fresh r draws n hall hA hn1 with
          ⟨f, hf, _, hrun⟩ | ⟨bU, bL, bN, bS, hU, hL, hN, hS, _⟩
        · exact reply (booleanMessage f)
            (List.mem_append_right _ (List.mem_cons_of_mem _ (List.mem_map_of_mem _ hf))) hrun
        · exfalso
          apply hfail
          refine ⟨hall, ⟨n, hA, hn1⟩, ?_⟩
          simp [flagParams, hU, hL, hN, hS]
  · have hmiss : ∃ p ∈ requiredParams, r.queryGet p = "" := by
      unfold allProvided at hall
      push_neg at hall
      exact hall
    obtain ⟨pre, p, post, hsplit, hpre, hp⟩ :=
      exists_first (fun p => r.queryGet p = "") requiredParams hmiss
    exact reply (missingMessage p)
      (List.mem_append_left _ (List.mem_map_of_mem _ (by simp [hsplit])))
      (handler_first_missing _ r draws pre post p hsplit hpre hp)

theorem handler_validation_failure_witness :
    ∃ message,
      message ∈ requiredParams.map missingMessage ++ lengthMessage ::
        flagParams.map booleanMessage ∧
      (generatePasswordHandler ResponseWriter.fresh (requestOf "7" "true" "true" "2" "true")
        (fun k => k)).w.status = some 400 ∧
      (generatePasswordHandler ResponseWriter.fresh (requestOf "7" "true" "true" "2" "true")
        (fun k => k)).w.body = [Written.text (message ++ "\n")] ∧
      (generatePasswordHandler ResponseWriter.fresh (requestOf "7" "true" "true" "2" "true")
        (fun k => k)).generatorCalls = [] ∧
      (∀ fields, Written.jsonObject fields ∉
        (generatePasswordHandler ResponseWriter.fresh (requestOf "7" "true" "true" "2" "true")
          (fun k => k)).w.body) ∧
      (generatePasswordHandler ResponseWriter.fresh (requestOf "7" "true" "true" "2" "true")
        (fun k => k)).w.headerGet "Content-Type" ≠ "application/json" ∧
      (generatePasswordHandler ResponseWriter.fresh (requestOf "7" "true" "true" "2" "true")
        (fun k => k)).ending = Ending.returned :=
  handler_validation_failure (requestOf "7" "true" "true" "2" "true") (fun k => k)
    (by
      rintro ⟨_, _, hflags⟩
      exact hflags "useNumbers" (by decide) (by decide))

/-! ## The sampling alphabet -/

/-- C11: for every combination of the four flags the sampling alphabet built
by `generatePassword` is the concatenation, in the order uppercase,
lowercase, digits, special, of exactly the classes whose flag is true; the
classes have 26, 26, 10 and 28 characters, so the alphabet has
`26*u + 26*l + 10*n + 28*s` characters, and it is empty if and only if all
four flags are false. -/
theorem buildCharsToUse_concat (config : PasswordConfig) :
    buildCharsToUse config =
      (if config.UseUppercase then uppercaseChars else "") ++
      (if config.UseLowercase then lowercaseChars else "") ++
      (if config.UseNumbers then numberChars else "") ++
      (if config.UseSpecialChar then specialCharChars else "") ∧
    (uppercaseChars.length = 26 ∧ lowercaseChars.length = 26 ∧ numberChars.length = 10 ∧
      specialCharChars.length = 28) ∧
    (buildCharsToUse config).length =
      26 * (if config.UseUppercase then 1 else 0) + 26 * (if config.UseLowercase then 1 else 0) +
      10 * (if config.UseNumbers then 1 else 0) + 28 * (if config.UseSpecialChar then 1 else 0) ∧
    (buildCharsToUse config = "" ↔
      (config.UseUppercase = false ∧ config.UseLowercase = false ∧
        config.UseNumbers = false ∧ config.UseSpecialChar = false)) := by
  obtain ⟨n, u, l, d, s⟩ := config
  have key : ∀ u l d s : Bool,
      buildCharsToUse ⟨0, u, l, d, s⟩ =
        (if u then uppercaseChars else "") ++ (if l then lowercaseChars else "") ++
        (if d then numberChars else "") ++ (if s then specialCharChars else "") ∧
      (uppercaseChars.length = 26 ∧ lowercaseChars.length = 26 ∧ numberChars.length = 10 ∧
        specialCharChars.length = 28) ∧
      (buildCharsToUse ⟨0, u, l, d, s⟩).length =
        26 * (if u then 1 else 0) + 26 * (if l then 1 else 0) +
        10 * (if d then 1 else 0) + 28 * (if s then 1 else 0) ∧
      (buildCharsToUse ⟨0, u, l, d, s⟩ = "" ↔
        (u = false ∧ l = false ∧ d = false ∧ s = false)) := by
    decide
  exact key u l d s

/-! ## The draws of the generator -/

theorem data_length_pos_of_ne_empty (s : String) (h : s ≠ "") : 0 < s.data.length := by
  obtain ⟨cs⟩ := s
  cases cs with
  | nil => exact absurd rfl h
  | cons c cs => simp

/-- C12, as stated, fails on the code: with `Length = 2^48 + 1` and all four
classes enabled the alphabet is non-empty and `Length >= 0`, yet
`make([]byte, Length)` panics before the loop: the generator returns nothing
and makes no draw at all. -/
theorem generatePassword_draws_counterexample :
    (0 : Int) ≤ 2 ^ 48 + 1 ∧
    buildCharsToUse ⟨2 ^ 48 + 1, true, true, true, true⟩ ≠ "" ∧
    generatePasswordRun ⟨2 ^ 48 + 1, true, true, true, true⟩ (fun k => k) =
      .error Panic.makesliceLenOutOfRange ∧
    ¬ ∃ st : LoopState,
      generatePasswordRun ⟨2 ^ 48 + 1, true, true, true, true⟩ (fun k => k) = .ok st ∧
        (st.drawn : Int) = 2 ^ 48 + 1 := by
  have hfail : generatePasswordRun ⟨2 ^ 48 + 1, true, true, true, true⟩ (fun k => k) =
      .error Panic.makesliceLenOutOfRange := by
    simp [generatePasswordRun, makeBytes, maxAlloc]
  refine ⟨by norm_num, by decide, hfail, ?_⟩
  rintro ⟨st, hst, _⟩
  rw [hfail] at hst
  cases hst

/-- C12, amended: for every configuration with a non-empty alphabet and
`0 <= Length <= maxAlloc` (the sizes `make` accepts), `generatePassword`
returns after exactly `Length` calls of `rand.Intn`; the `k`-th call yields an
index `i` with `i < len(charsToUse)`, the index expression `charsToUse[i]`
succeeds, and its value is the character at position `k` of the result.
Hence the result depends only on the configuration and on the drawn
indices. -/
theorem generatePassword_draws (config : PasswordConfig) (draws : Nat → Nat)
    (hlen : 0 ≤ config.Length) (hmax : config.Length ≤ maxAlloc)
    (hne : buildCharsToUse config ≠ "") :
    ∃ st : LoopState,
      generatePasswordRun config draws = .ok st ∧
      generatePassword config draws = .ok (String.mk st.password) ∧
      (st.drawn : Int) = config.Length ∧
      (st.password.length : Int) = config.Length ∧
      (∀ k, k < st.password.length →
        ∃ i c, Intn (draws k) (buildCharsToUse config).data.length = .ok i ∧
          i < (buildCharsToUse config).data.length ∧
          byteAt (buildCharsToUse config) i = .ok c ∧
          st.password[k]? = some c) ∧
      (∀ other : Nat → Nat,
        (∀ k : Nat, (k : Int) < config.Length →
          Intn (other k) (buildCharsToUse config).data.length =
            Intn (draws k) (buildCharsToUse config).data.length) →
        generatePassword config other = generatePassword config draws) := by
  have hpos := data_length_pos_of_ne_empty _ hne
  have hrun := generatePasswordRun_eq config draws hlen hmax hpos
  refine ⟨_, hrun, generatePassword_eq config draws hlen hmax hpos, ?_, ?_, ?_, ?_⟩
  · simp [Int.toNat_of_nonneg hlen]
  · simp [Int.toNat_of_nonneg hlen]
  · intro k hk
    have hk2 : k < config.Length.toNat := by simpa using hk
    have hj : draws k % (buildCharsToUse config).data.length <
        (buildCharsToUse config).data.length := Nat.mod_lt _ hpos
    refine ⟨_, _, Intn_pos _ _ hpos, hj, byteAt_lt _ _ hj, ?_⟩
    simp [hk2, drawnChar]
  · intro other hsame
    rw [generatePassword_eq config other hlen hmax hpos,
      generatePassword_eq config draws hlen hmax hpos]
    congr 2
    apply List.map_congr_left
    intro k hk
    have hk2 : (k : Int) < config.Length := by
      have := List.mem_range.mp hk
      omega
    have h := hsame k hk2
    rw [Intn_pos _ _ hpos, Intn_pos _ _ hpos] at h
    have h2 : other k % (buildCharsToUse config).data.length =
        draws k % (buildCharsToUse config).data.length := by
      injection h
    unfold drawnChar
    rw [h2]

theorem generatePassword_draws_witness :
    ∃ st : LoopState,
      generatePasswordRun ⟨3, true, false, true, false⟩ (fun k => 40 * k + 5) = .ok st ∧
      generatePassword ⟨3, true, false, true, false⟩ (fun k => 40 * k + 5) =
        .ok (String.mk st.password) ∧
      (st.drawn : Int) = 3 ∧
      (st.password.length : Int) = 3 ∧
      (∀ k, k < st.password.length →
        ∃ i c, Intn ((fun k => 40 * k + 5) k)
            (buildCharsToUse ⟨3, true, false, true, false⟩).data.length = .ok i ∧
          i < (buildCharsToUse ⟨3, true, false, true, false⟩).data.length ∧
          byteAt (buildCharsToUse ⟨3, true, false, true, false⟩) i = .ok c ∧
          st.password[k]? = some c) ∧
      (∀ other : Nat → Nat,
        (∀ k : Nat, (k : Int) < 3 →
          Intn (other k) (buildCharsToUse ⟨3, true, false, true, false⟩).data.length =
            Intn ((fun k => 40 * k + 5) k)
              (buildCharsToUse ⟨3, true, false, true, false⟩).data.length) →
        generatePassword ⟨3, true, false, true, false⟩ other =
          generatePassword ⟨3, true, false, true, false⟩ (fun k => 40 * k + 5)) :=
  generatePassword_draws ⟨3, true, false, true, false⟩ (fun k => 40 * k + 5)
    (by decide) (by decide) (by decide)

theorem buildCharsToUse_all_false (n : Int) :
    buildCharsToUse ⟨n, false, false, false, false⟩ = "" := rfl

/-- With a length `make` accepts, of at least one, and an empty alphabet the
first iteration of the loop panics in `rand.Intn(0)`. -/
theorem generatePassword_empty_alphabet (n : Int) (draws : Nat → Nat) (hn : 1 ≤ n)
    (hmax : n ≤ maxAlloc) :
    generatePassword ⟨n, false, false, false, false⟩ draws =
      .error Panic.intnInvalidArgument := by
  obtain ⟨m, hm⟩ : ∃ m : Nat, n.toNat = m + 1 := ⟨n.toNat - 1, by omega⟩
  have hneg : ¬ n < 0 := by omega
  have hbig : ¬ maxAlloc < n := by omega
  simp [generatePassword, generatePasswordRun, makeBytes, hneg, hbig, hm, fillLoop,
    buildCharsToUse_all_false, Intn]

/-- C13, as stated, fails on the code: with `Length = 2^48 + 1` and the digit
flag set the generator fails (`make` panics), although `Length` is not
negative and not all four flags are false. -/
theorem generatePassword_fails_iff_counterexample :
    (∃ p, generatePassword ⟨2 ^ 48 + 1, false, false, true, false⟩ (fun k => k + 1) =
      .error p) ∧
    ¬ ((2 ^ 48 + 1 : Int) < 0 ∨
      ((1 : Int) ≤ 2 ^ 48 + 1 ∧ (false : Bool) = false ∧ (false : Bool) = false ∧
        (true : Bool) = false ∧ (false : Bool) = false)) := by
  refine ⟨⟨_, generatePassword_too_long ⟨2 ^ 48 + 1, false, false, true, false⟩
    (fun k => k + 1) (by norm_num [maxAlloc])⟩, ?_⟩
  norm_num

/-- C13, amended: `generatePassword` fails (raises a panic instead of
returning a string) exactly when `Length < 0`, or `Length > maxAlloc` (the
largest size `make` accepts), or `Length >= 1` and all four flags are false;
with `Length = 0` it returns the empty string for every combination of flags,
all four false included. -/
theorem generatePassword_fails_iff (config : PasswordConfig) (draws : Nat → Nat) :
    ((∃ p, generatePassword config draws = .error p) ↔
      (config.Length < 0 ∨ maxAlloc < config.Length ∨
        (1 ≤ config.Length ∧ config.UseUppercase = false ∧ config.UseLowercase = false ∧
          config.UseNumbers = false ∧ config.UseSpecialChar = false))) ∧
    (config.Length = 0 → generatePassword config draws = .ok "") := by
  have hmaxpos : (0 : Int) < maxAlloc := by norm_num [maxAlloc]
  have hzero : config.Length = 0 → generatePassword config draws = .ok "" := by
    intro h0
    have hbig : ¬ maxAlloc < 0 := by omega
    simp [generatePassword, generatePasswordRun, makeBytes, h0, hbig, fillLoop]
  refine ⟨?_, hzero⟩
  rcases lt_trichotomy config.Length 0 with hneg | h0 | hpos
  · exact ⟨fun _ => Or.inl hneg, fun _ => ⟨_, generatePassword_negative config draws hneg⟩⟩
  · constructor
    · rintro ⟨p, hp⟩
      rw [hzero h0] at hp
      cases hp
    · rintro (h | h | ⟨h, _⟩) <;> omega
  · have h1 : 1 ≤ config.Length := by omega
    by_cases hbig : maxAlloc < config.Length
    · exact ⟨fun _ => Or.inr (Or.inl hbig),
        fun _ => ⟨_, generatePassword_too_long config draws hbig⟩⟩
    · have hmax : config.Length ≤ maxAlloc := by omega
      by_cases hflag : config.UseUppercase = true ∨ config.UseLowercase = true ∨
          config.UseNumbers = true ∨ config.UseSpecialChar = true
      · constructor
        · rintro ⟨p, hp⟩
          rw [generatePassword_eq config draws (by omega) hmax
            (buildCharsToUse_pos config hflag)] at hp
          cases hp
        · rintro (h | h | ⟨_, hU, hL, hN, hS⟩)
          · omega
          · omega
          · simp [hU, hL, hN, hS] at hflag
      · simp only [not_or, Bool.not_eq_true] at hflag
        obtain ⟨hU, hL, hN, hS⟩ := hflag
        have hfail : generatePassword config draws = .error Panic.intnInvalidArgument := by
          obtain ⟨n, u, l, d, s⟩ := config
          simp only at hU hL hN hS h1 hmax
          subst hU hL hN hS
          exact generatePassword_empty_alphabet n draws h1 hmax
        exact ⟨fun _ => Or.inr (Or.inr ⟨h1, hU, hL, hN, hS⟩), fun _ => ⟨_, hfail⟩⟩

theorem generatePassword_fails_iff_witness :
    generatePassword ⟨0, false, false, false, false⟩ (fun k => k) = .ok "" :=
  (generatePassword_fails_iff ⟨0, false, false, false, false⟩ (fun k => k)).2 rfl

theorem alphabet_first_two_differ :
    ∀ u l d s : Bool, (u = true ∨ l = true ∨ d = true ∨ s = true) →
      (buildCharsToUse ⟨0, u, l, d, s⟩).data.getD
          (0 % (buildCharsToUse ⟨0, u, l, d, s⟩).data.length) (Char.ofNat 0) ≠
        (buildCharsToUse ⟨0, u, l, d, s⟩).data.getD
          (1 % (buildCharsToUse ⟨0, u, l, d, s⟩).data.length) (Char.ofNat 0) := by
  decide

/-- C14, as stated, fails on the code: with `Length = 2^63 - 1` and all four
classes enabled every sequence of draws ends in the same panic of `make`, so
there are no two sequences of draws on which different passwords are
returned. -/
theorem generatePassword_not_determined_counterexample :
    (1 : Int) ≤ 2 ^ 63 - 1 ∧
    ¬ ∃ (draws other : Nat → Nat) (s t : String),
      generatePassword ⟨2 ^ 63 - 1, true, true, true, true⟩ draws = .ok s ∧
        generatePassword ⟨2 ^ 63 - 1, true, true, true, true⟩ other = .ok t ∧ s ≠ t := by
  refine ⟨by norm_num, ?_⟩
  rintro ⟨draws, _, s, _, hs, _, _⟩
  rw [generatePassword_too_long ⟨2 ^ 63 - 1, true, true, true, true⟩ draws
    (by norm_num [maxAlloc])] at hs
  cases hs

/-- C14, amended: `generatePassword` is not a function of the configuration
alone: for every configuration with `1 <= Length <= maxAlloc` (the sizes
`make` accepts) and at least one flag true there are two sequences of random
draws on which it returns different passwords. -/
theorem generatePassword_not_determined (config : PasswordConfig)
    (hlen : 1 ≤ config.Length) (hmax : config.Length ≤ maxAlloc)
    (hflag : config.UseUppercase = true ∨ config.UseLowercase = true ∨
      config.UseNumbers = true ∨ config.UseSpecialChar = true) :
    ∃ (draws other : Nat → Nat) (s t : String),
      generatePassword config draws = .ok s ∧ generatePassword config other = .ok t ∧
        s ≠ t := by
  have h0 : 0 ≤ config.Length := by omega
  have hne := buildCharsToUse_pos config hflag
  refine ⟨fun _ => 0, fun _ => 1, _, _, generatePassword_eq config _ h0 hmax hne,
    generatePassword_eq config _ h0 hmax hne, ?_⟩
  obtain ⟨m, hm⟩ : ∃ m : Nat, config.Length.toNat = m + 1 :=
    ⟨config.Length.toNat - 1, by omega⟩
  intro heq
  injection heq with heq
  rw [hm, List.range_succ_eq_map] at heq
  simp only [List.map_cons] at heq
  injection heq with hhead _
  obtain ⟨n, u, l, d, s⟩ := config
  exact alphabet_first_two_differ u l d s hflag hhead

theorem generatePassword_not_determined_witness :
    ∃ (draws other : Nat → Nat) (s t : String),
      generatePassword ⟨2, false, false, true, false⟩ draws = .ok s ∧
        generatePassword ⟨2, false, false, true, false⟩ other = .ok t ∧ s ≠ t :=
  generatePassword_not_determined ⟨2, false, false, true, false⟩ (by decide) (by decide)
    (by decide)

/-! ## Distinctness of the alphabet -/

theorem classes_disjoint :
    (∀ c ∈ uppercaseChars.data,
      c ∉ lowercaseChars.data ∧ c ∉ numberChars.data ∧ c ∉ specialCharChars.data) ∧
    (∀ c ∈ lowercaseChars.data, c ∉ numberChars.data ∧ c ∉ specialCharChars.data) ∧
    (∀ c ∈ numberChars.data, c ∉ specialCharChars.data) := by
  decide

set_option maxRecDepth 100000 in
theorem buildCharsToUse_nodup :
    ∀ u l d s : Bool, (buildCharsToUse ⟨0, u, l, d, s⟩).data.Nodup := by
  decide

set_option maxRecDepth 100000 in
theorem buildCharsToUse_one_class :
    ∀ u l d s : Bool, ∀ c ∈ (buildCharsToUse ⟨0, u, l, d, s⟩).data,
      inOneEnabledClass ⟨0, u, l, d, s⟩ c := by
  decide

theorem byteAt_ok_iff (s : String) (i : Nat) (c : Char) :
    byteAt s i = .ok c ↔ s.data[i]? = some c := by
  unfold byteAt
  cases h : s.data[i]? with
  | none => simp
  | some x => simp

/-- C15: the four character classes are pairwise disjoint and none repeats a
character, so for every combination of flags no character of the sampling
alphabet is repeated: the map from a drawn index to the emitted character is
injective, and an emitted character lies in exactly one class, which is an
enabled one. -/
theorem alphabet_index_injective (config : PasswordConfig) :
    (List.Disjoint uppercaseChars.data lowercaseChars.data ∧
      List.Disjoint uppercaseChars.data numberChars.data ∧
      List.Disjoint uppercaseChars.data specialCharChars.data ∧
      List.Disjoint lowercaseChars.data numberChars.data ∧
      List.Disjoint lowercaseChars.data specialCharChars.data ∧
      List.Disjoint numberChars.data specialCharChars.data) ∧
    (uppercaseChars.data.Nodup ∧ lowercaseChars.data.Nodup ∧ numberChars.data.Nodup ∧
      specialCharChars.data.Nodup) ∧
    (buildCharsToUse config).data.Nodup ∧
    (∀ i j c, byteAt (buildCharsToUse config) i = .ok c →
      byteAt (buildCharsToUse config) j = .ok c → i = j) ∧
    (∀ c ∈ (buildCharsToUse config).data,
      (config.UseUppercase = true ∧ c ∈ uppercaseChars.data ∧ c ∉ lowercaseChars.data ∧
        c ∉ numberChars.data ∧ c ∉ specialCharChars.data) ∨
      (config.UseLowercase = true ∧ c ∉ uppercaseChars.data ∧ c ∈ lowercaseChars.data ∧
        c ∉ numberChars.data ∧ c ∉ specialCharChars.data) ∨
      (config.UseNumbers = true ∧ c ∉ uppercaseChars.data ∧ c ∉ lowercaseChars.data ∧
        c ∈ numberChars.data ∧ c ∉ specialCharChars.data) ∨
      (config.UseSpecialChar = true ∧ c ∉ uppercaseChars.data ∧ c ∉ lowercaseChars.data ∧
        c ∉ numberChars.data ∧ c ∈ specialCharChars.data)) := by
  obtain ⟨hUp, hLo, hNu⟩ := classes_disjoint
  obtain ⟨n, u, l, d, s⟩ := config
  have hnodup : (buildCharsToUse ⟨n, u, l, d, s⟩).data.Nodup := buildCharsToUse_nodup u l d s
  refine ⟨⟨?_, ?_, ?_, ?_, ?_, ?_⟩, ⟨?_, ?_, ?_, ?_⟩, hnodup, ?_, buildCharsToUse_one_class u l d s⟩
  · exact fun c h1 h2 => (hUp c h1).1 h2
  · exact fun c h1 h2 => (hUp c h1).2.1 h2
  · exact fun c h1 h2 => (hUp c h1).2.2 h2
  · exact fun c h1 h2 => (hLo c h1).1 h2
  · exact fun c h1 h2 => (hLo c h1).2 h2
  · exact fun c h1 h2 => hNu c h1 h2
  · exact buildCharsToUse_nodup true false false false
  · exact buildCharsToUse_nodup false true false false
  · exact buildCharsToUse_nodup false false true false
  · exact buildCharsToUse_nodup false false false true
  · intro i j c hi hj
    rw [byteAt_ok_iff] at hi hj
    have hlt : i < (buildCharsToUse ⟨n, u, l, d, s⟩).data.length := by
      by_contra hge
      rw [List.getElem?_eq_none (Nat.le_of_not_lt hge)] at hi
      cases hi
    exact List.getElem?_inj hlt hnodup (hi.trans hj.symm)

theorem alphabet_index_injective_witness :
    byteAt (buildCharsToUse ⟨4, true, true, false, false⟩) 27 = .ok 'b' ∧ (27 : Nat) = 27 :=
  ⟨by decide,
    (alphabet_index_injective ⟨4, true, true, false, false⟩).2.2.2.1 27 27 'b'
      (by decide) (by decide)⟩

/-! ## The length the handler hands to the generator -/

/-- Every run of the handler is either a single 400 reply, without a call of
the generator, or one call of the generator on a configuration built from a
parsed length of at least one. -/
theorem handler_cases (w : ResponseWriter) (r : Request) (draws : Nat → Nat) :
    (∃ message, generatePasswordHandler w r draws = replyBadRequest w message) ∨
    (∃ (n : Int) (bU bL bN bS : Bool), 1 ≤ n ∧
      Atoi (r.queryGet "length") = some n ∧
      generatePasswordHandler w r draws =
        match generatePassword ⟨n, bU, bL, bN, bS⟩ draws with
        | .error p =>
          { w := w, generatorCalls := [⟨n, bU, bL, bN, bS⟩], ending := Ending.panicked p }
        | .ok password =>
          { w := jsonEncode (w.headerSet "Content-Type" "application/json")
              [("password", password)],
            generatorCalls := [⟨n, bU, bL, bN, bS⟩], ending := Ending.returned }) := by
  by_cases hall : allProvided r
  · cases hA : Atoi (r.queryGet "length") with
    | none => exact Or.inl ⟨_, handler_bad_length w r draws hall (Or.inl hA)⟩
    | some n =>
      by_cases hn : n ≤ 0
      · exact Or.inl ⟨_, handler_bad_length w r draws hall (Or.inr ⟨n, hA, hn⟩)⟩
      · have hn1 : 1 ≤ n := by omega
        rcases handler_after_length w r draws n hall hA hn1 with
          ⟨f, _, _, hrun⟩ | ⟨bU, bL, bN, bS, hU, hL, hN, hS, _⟩
        · exact Or.inl ⟨_, hrun⟩
        · exact Or.inr ⟨n, bU, bL, bN, bS, hn1, rfl,
            handler_validated w r draws n bU bL bN bS hall hA hn1 hU hL hN hS⟩
  · have hmiss : ∃ p ∈ requiredParams, r.queryGet p = "" := by
      unfold allProvided at hall
      push_neg at hall
      exact hall
    obtain ⟨pre, p, post, hsplit, hpre, hp⟩ :=
      exists_first (fun p => r.queryGet p = "") requiredParams hmiss
    exact Or.inl ⟨_, handler_first_missing w r draws pre post p hsplit hpre hp⟩

/-- On a length `make` accepts the generator does not panic in `make`. -/
theorem generatePassword_no_makeslice_panic (config : PasswordConfig) (draws : Nat → Nat)
    (hlen : 0 ≤ config.Length) (hmax : config.Length ≤ maxAlloc) :
    generatePassword config draws ≠ .error Panic.makesliceLenOutOfRange := by
  have hneg : ¬ config.Length < 0 := by omega
  have hbig : ¬ maxAlloc < config.Length := by omega
  cases hm : config.Length.toNat with
  | zero => simp [generatePassword, generatePasswordRun, makeBytes, hneg, hbig, hm, fillLoop]
  | succ m =>
    by_cases hpos : 0 < (buildCharsToUse config).data.length
    · rw [generatePassword_eq config draws hlen hmax hpos]
      simp
    · have hzero : (buildCharsToUse config).data.length = 0 := by omega
      simp [generatePassword, generatePasswordRun, makeBytes, hneg, hbig, hm, fillLoop, Intn,
        hzero]

/-- C16: for every request, whenever the handler invokes `generatePassword`
the configuration it passes has `Length >= 1`, the parsed length; so on that
path the allocation `make([]byte, config.Length)` never gets a negative size:
it succeeds whenever the length is at most `maxAlloc`, and a run of the
handler left by the panic of `make` has passed a length above `maxAlloc`. -/
theorem handler_generator_length_positive (w : ResponseWriter) (r : Request)
    (draws : Nat → Nat) :
    (∀ config ∈ (generatePasswordHandler w r draws).generatorCalls,
      1 ≤ config.Length ∧
      Atoi (r.queryGet "length") = some config.Length ∧
      ¬ config.Length < 0 ∧
      (config.Length ≤ maxAlloc →
        makeBytes config.Length = .ok (List.replicate config.Length.toNat (Char.ofNat 0)))) ∧
    ((generatePasswordHandler w r draws).ending =
        Ending.panicked Panic.makesliceLenOutOfRange →
      ∃ config ∈ (generatePasswordHandler w r draws).generatorCalls,
        maxAlloc < config.Length) := by
  rcases handler_cases w r draws with ⟨message, hrun⟩ | ⟨n, bU, bL, bN, bS, hn, hA, hrun⟩
  · rw [hrun]
    exact ⟨by simp [replyBadRequest], by simp [replyBadRequest]⟩
  · have hneg : ¬ n < 0 := by omega
    have hmake : n ≤ maxAlloc →
        makeBytes n = .ok (List.replicate n.toNat (Char.ofNat 0)) := by
      intro hmax
      have hbig : ¬ maxAlloc < n := by omega
      simp [makeBytes, hneg, hbig]
    rw [hrun]
    cases hgen : generatePassword ⟨n, bU, bL, bN, bS⟩ draws with
    | error p =>
      refine ⟨?_, ?_⟩
      · intro config hmem
        simp only [List.mem_singleton] at hmem
        subst hmem
        exact ⟨hn, hA, hneg, hmake⟩
      · intro hend
        simp only [Ending.panicked.injEq] at hend
        refine ⟨⟨n, bU, bL, bN, bS⟩, by simp, ?_⟩
        by_contra hbig
        have hsmall : ¬ maxAlloc < n := hbig
        exact generatePassword_no_makeslice_panic ⟨n, bU, bL, bN, bS⟩ draws
          (show (0 : Int) ≤ n by omega) (show n ≤ maxAlloc by omega) (by rw [hgen, hend])
    | ok password =>
      refine ⟨?_, by simp⟩
      intro config hmem
      simp only [List.mem_singleton] at hmem
      subst hmem
      exact ⟨hn, hA, hneg, hmake⟩

theorem handler_generator_length_positive_witness :
    (1 : Int) ≤ 3 ∧
    Atoi ((requestOf "3" "0" "0" "0" "0").queryGet "length") = some 3 ∧
    ¬ (3 : Int) < 0 ∧
    ((3 : Int) ≤ maxAlloc →
      makeBytes 3 = .ok (List.replicate (3 : Int).toNat (Char.ofNat 0))) :=
  (handler_generator_length_positive ResponseWriter.fresh (requestOf "3" "0" "0" "0" "0")
    (fun k => k)).1 ⟨3, false, false, false, false⟩ (by decide)

end PasswordGenerator
